import Mathlib

/-!
Verification of the Decision platform's ML core (feature extraction, model
abstraction, explainers, orchestration engine) against its natural-language
specification.  The Python source under `backend/ml/` is shallowly embedded:
dictionaries become association lists in insertion order, numeric values are
modelled by `ℚ`, a Python call that can raise is modelled by an explicit
result type, and external primitives (`float(str)` parsing, `strptime`,
wall-clock time, fitted sklearn estimators) are oracle fields/parameters the
theorems quantify over.
-/

set_option maxHeartbeats 1000000

namespace Decision

/-- Outcome of a Python call: a normal value, Python's `None`, an error
payload dictionary of the shape `{"error": msg}`, or a raised exception. -/
inductive PyResult (α : Type) where
  | val (a : α)
  | noneVal
  | errorPayload (msg : String)
  | raised (msg : String)
deriving DecidableEq, Repr

/-- A Python runtime value as observed by the feature extractor and the model
layer: a number, a string, `None`, or a `datetime`/`date` object.  A
`datetime` is abstracted to its year, month and day number (days since a
fixed epoch); times of day are abstracted to midnight, which is exact for
values produced by `strptime("%Y-%m-%d")` and `datetime.combine(d, min.time)`. -/
structure PyDate where
  year : ℤ
  month : ℤ
  days : ℤ
deriving DecidableEq, Repr

inductive RawVal where
  | num (q : ℚ)
  | str (s : String)
  | noneV
  | date (d : PyDate)
deriving DecidableEq, Repr

/-- Python truthiness of a `RawVal` (`0`, `""` and `None` are falsy). -/
def truthy : RawVal → Bool
  | RawVal.num q => decide (q ≠ 0)
  | RawVal.str s => decide (s ≠ "")
  | RawVal.noneV => false
  | RawVal.date _ => true

/-- External primitives the Python code calls into: `float(s)` parsing
(`none` models a raised `ValueError`), `datetime.strptime(s, "%Y-%m-%d")`
(`none` models a parse error), and the components of `datetime.now()`. -/
structure Prims where
  floatOfString : String → Option ℚ
  parseYMD : String → Option PyDate
  nowYear : ℤ
  nowMonth : ℤ
  nowDays : ℤ

/-- A raw input mapping (`Dict[str, Any]`): `none` means the key is absent. -/
def RawData : Type := String → Option RawVal

/-- `data.get(key, default)`. -/
def dataGet (data : RawData) (key : String) (dflt : RawVal) : RawVal :=
  (data key).getD dflt

/-- Does the first list start with the second? -/
def charsStartWith : List Char → List Char → Bool
  | _, [] => true
  | [], _ :: _ => false
  | c :: cs, n :: ns => c = n && charsStartWith cs ns

/-- Is `needle` a contiguous sublist of `hay`? -/
def charsContain (hay needle : List Char) : Bool :=
  match hay with
  | [] => needle.isEmpty
  | c :: rest => charsStartWith (c :: rest) needle || charsContain rest needle

/-- Python `in`-test on strings, `needle in hay`. -/
def strContains (hay needle : String) : Bool :=
  charsContain hay.toList needle.toList

/-- Python `int()` truncation toward zero. -/
def pyTrunc (q : ℚ) : ℤ :=
  if 0 ≤ q then ⌊q⌋ else ⌈q⌉

/-- `FeatureExtractor._initialize_feature_mappings()["funding_stages"]`. -/
def funding_stages : List (String × ℚ) :=
  [("Pre-Seed", 1), ("Seed", 2), ("Series A", 3), ("Series B", 4),
   ("Series C", 5), ("Series D", 6), ("Later Stage", 7), ("IPO", 8)]

/-- `..._feature_mappings()["sectors"]`. -/
def sectors : List (String × ℚ) :=
  [("AI/ML", 1), ("FinTech", 2), ("HealthTech", 3), ("E-commerce", 4),
   ("SaaS", 5), ("Biotech", 6), ("CleanTech", 7), ("EdTech", 8),
   ("Gaming", 9), ("Hardware", 10), ("Other", 0)]

/-- `..._feature_mappings()["competition_levels"]`. -/
def competition_levels : List (String × ℚ) :=
  [("low", 1), ("medium", 2), ("high", 3)]

/-- `..._feature_mappings()["business_models"]`. -/
def business_models : List (String × ℚ) :=
  [("B2B", 1), ("B2C", 2), ("B2B2C", 3), ("Marketplace", 4),
   ("SaaS", 5), ("Hardware", 6), ("Subscription", 7), ("Freemium", 8)]

/-- Python `table.get(v, dflt)` on a string-keyed dict: a non-string value
never matches a string key, so it falls to the default. -/
def mappingGet (table : List (String × ℚ)) (v : RawVal) (dflt : ℚ) : ℚ :=
  match v with
  | RawVal.str s => (table.lookup s).getD dflt
  | _ => dflt

/-- `FeatureExtractor._safe_float`: `float(value)` with `None` and parse/type
errors mapped to `0.0`. -/
def safe_float (P : Prims) : RawVal → ℚ
  | RawVal.num q => q
  | RawVal.str s => (P.floatOfString s).getD 0
  | RawVal.noneV => 0
  | RawVal.date _ => 0

/-- `FeatureExtractor._safe_int`: `int(float(value))` with errors mapped to 0. -/
def safe_int (P : Prims) : RawVal → ℤ
  | RawVal.num q => pyTrunc q
  | RawVal.str s =>
      match P.floatOfString s with
      | some q => pyTrunc q
      | none => 0
  | RawVal.noneV => 0
  | RawVal.date _ => 0

/-- `FeatureExtractor._calculate_company_age`: fractional years between a
founding date (string in `%Y-%m-%d`, a `date`/`datetime` object, or absent)
and now, clamped below at 0; absent, falsy, unparsable or non-date inputs
yield `0.0` (the `except` branch). -/
def calculate_company_age (P : Prims) (founded_date : Option RawVal) : ℚ :=
  match founded_date with
  | none => 0
  | some fd =>
      if truthy fd = false then 0
      else
        match fd with
        | RawVal.str s =>
            match P.parseYMD s with
            | none => 0
            | some d => max 0 (((P.nowDays - d.days : ℤ) : ℚ) / (365.25 : ℚ))
        | RawVal.date d => max 0 (((P.nowDays - d.days : ℤ) : ℚ) / (365.25 : ℚ))
        | _ => 0

/-- `FeatureExtractor._get_geography_tier` (requires a string; a non-string
`geography` makes Python's `in` operator raise `TypeError`, modelled by the
error case of the caller). -/
def top_tier_geographies : List String :=
  ["United States", "San Francisco", "New York", "Boston", "London", "Singapore"]

def second_tier_geographies : List String :=
  ["Canada", "Germany", "France", "Israel", "Australia"]

def get_geography_tier (geography : String) : ℤ :=
  if top_tier_geographies.any (fun t => strContains geography t) then 1
  else if second_tier_geographies.any (fun t => strContains geography t) then 2
  else 3

def get_geography_tier_val : RawVal → Except String ℤ
  | RawVal.str g => Except.ok (get_geography_tier g)
  | _ => Except.error "TypeError: argument of type is not iterable"

/-- `FeatureExtractor._extract_financial_features`. -/
def extract_financial_features (P : Prims) (data : RawData) : List (String × ℚ) :=
  [("revenue", safe_float P (dataGet data "revenue" (RawVal.num 0))),
   ("revenue_growth", safe_float P (dataGet data "revenue_growth" (RawVal.num 0))),
   ("recurring_revenue_ratio", safe_float P (dataGet data "recurring_revenue_ratio" (RawVal.num 0))),
   ("funding_amount", safe_float P (dataGet data "funding_amount" (RawVal.num 0))),
   ("previous_funding", safe_float P (dataGet data "previous_funding" (RawVal.num 0))),
   ("funding_stage_numeric", mappingGet funding_stages (dataGet data "funding_stage" (RawVal.str "Other")) 0),
   ("burn_rate", safe_float P (dataGet data "burn_rate" (RawVal.num 0))),
   ("runway_months", safe_float P (dataGet data "runway_months" (RawVal.num 0))),
   ("unit_economics_score", safe_float P (dataGet data "unit_economics_score" (RawVal.num 0)))]

/-- `FeatureExtractor._extract_company_features`; the geography tier lookup
can raise (non-string input), which aborts the whole extraction. -/
def extract_company_features (P : Prims) (data : RawData) : Except String (List (String × ℚ)) :=
  match get_geography_tier_val (dataGet data "geography" (RawVal.str "Other")) with
  | Except.error e => Except.error e
  | Except.ok gt =>
      Except.ok
        [("company_age", calculate_company_age P (data "founded_date")),
         ("sector_numeric", mappingGet sectors (dataGet data "sector" (RawVal.str "Other")) 0),
         ("business_model_numeric", mappingGet business_models (dataGet data "business_model" (RawVal.str "Other")) 0),
         ("geography_tier", (gt : ℚ)),
         ("employee_count", ((safe_int P (dataGet data "employee_count" (RawVal.num 0))) : ℚ)),
         ("employee_growth", safe_float P (dataGet data "employee_growth" (RawVal.num 0)))]

/-- `FeatureExtractor._extract_market_features`. -/
def extract_market_features (P : Prims) (data : RawData) : List (String × ℚ) :=
  [("market_size", safe_float P (dataGet data "market_size" (RawVal.num 0))),
   ("competition_level_numeric", mappingGet competition_levels (dataGet data "competition_level" (RawVal.str "medium")) 2),
   ("market_growth_rate", safe_float P (dataGet data "market_growth_rate" (RawVal.num 0))),
   ("market_penetration", safe_float P (dataGet data "market_penetration" (RawVal.num 0)))]

/-- `FeatureExtractor._extract_temporal_features`.  A truthy non-string,
non-date `founded_date` reaches `.year` and raises `AttributeError`, aborting
the extraction (error case).  An unparsable string is set to `None` and the
founded block is skipped. -/
def extract_temporal_features (P : Prims) (data : RawData) : Except String (List (String × ℚ)) :=
  match data "founded_date" with
  | none =>
      Except.ok
        [("current_year", (P.nowYear : ℚ)),
         ("current_month", (P.nowMonth : ℚ)),
         ("current_quarter", ((Int.fdiv (P.nowMonth - 1) 3 + 1 : ℤ) : ℚ))]
  | some fd =>
      if truthy fd = false then
        Except.ok
          [("current_year", (P.nowYear : ℚ)),
           ("current_month", (P.nowMonth : ℚ)),
           ("current_quarter", ((Int.fdiv (P.nowMonth - 1) 3 + 1 : ℤ) : ℚ))]
      else
        match (match fd with
               | RawVal.str s => (P.parseYMD s).map RawVal.date
               | v => some v) with
        | none =>
            Except.ok
              [("current_year", (P.nowYear : ℚ)),
               ("current_month", (P.nowMonth : ℚ)),
               ("current_quarter", ((Int.fdiv (P.nowMonth - 1) 3 + 1 : ℤ) : ℚ))]
        | some (RawVal.date d) =>
            Except.ok
              [("current_year", (P.nowYear : ℚ)),
               ("current_month", (P.nowMonth : ℚ)),
               ("current_quarter", ((Int.fdiv (P.nowMonth - 1) 3 + 1 : ℤ) : ℚ)),
               ("founded_year", (d.year : ℚ)),
               ("founded_quarter", ((Int.fdiv (d.month - 1) 3 + 1 : ℤ) : ℚ)),
               ("is_recent_company", if P.nowDays - d.days < 365 * 3 then (1 : ℚ) else 0)]
        | some _ => Except.error "AttributeError: object has no attribute year"

/-- `FeatureExtractor._extract_team_features`. -/
def extract_team_features (P : Prims) (data : RawData) : List (String × ℚ) :=
  [("founder_experience", safe_float P (dataGet data "founder_experience" (RawVal.num 0))),
   ("team_size", ((safe_int P (dataGet data "team_size" (RawVal.num 0))) : ℚ)),
   ("technical_team_ratio", safe_float P (dataGet data "technical_team_ratio" (RawVal.num 0))),
   ("advisor_count", ((safe_int P (dataGet data "advisor_count" (RawVal.num 0))) : ℚ)),
   ("previous_exits", ((safe_int P (dataGet data "previous_exits" (RawVal.num 0))) : ℚ))]

/-- `FeatureExtractor._extract_product_features`, with the guarded
`ltv_cac_ratio` division (denominator `≤ 0` evaluates to 0). -/
def extract_product_features (P : Prims) (data : RawData) : List (String × ℚ) :=
  [("product_readiness", safe_float P (dataGet data "product_readiness" (RawVal.num 0))),
   ("customer_count", ((safe_int P (dataGet data "customer_count" (RawVal.num 0))) : ℚ)),
   ("customer_acquisition_cost", safe_float P (dataGet data "customer_acquisition_cost" (RawVal.num 0))),
   ("customer_lifetime_value", safe_float P (dataGet data "customer_lifetime_value" (RawVal.num 0))),
   ("churn_rate", safe_float P (dataGet data "churn_rate" (RawVal.num 0))),
   ("nps_score", safe_float P (dataGet data "nps_score" (RawVal.num 0))),
   ("ltv_cac_ratio",
     if 0 < safe_float P (dataGet data "customer_acquisition_cost" (RawVal.num 0)) then
       safe_float P (dataGet data "customer_lifetime_value" (RawVal.num 0)) /
         safe_float P (dataGet data "customer_acquisition_cost" (RawVal.num 0))
     else 0)]

/-- `FeatureExtractor._get_default_features`: the fixed fallback vector. -/
def _get_default_features : List (String × ℚ) :=
  [("revenue", 0), ("revenue_growth", 0), ("funding_amount", 0),
   ("company_age", 0), ("sector_numeric", 0), ("funding_stage_numeric", 0),
   ("business_model_numeric", 0), ("market_size", 0),
   ("competition_level_numeric", 2), ("employee_count", 0),
   ("founder_experience", 0), ("product_readiness", 0),
   ("customer_count", 0), ("ltv_cac_ratio", 0), ("geography_tier", 3)]

/-- `FeatureExtractor.extract_features`: concatenates the six feature groups
in source order (all keys are distinct, so dict update is concatenation); any
internal exception is caught and the fixed default vector is returned. -/
def extract_features (P : Prims) (data : RawData) : List (String × ℚ) :=
  match extract_company_features P data with
  | Except.error _ => _get_default_features
  | Except.ok c =>
      match extract_temporal_features P data with
      | Except.error _ => _get_default_features
      | Except.ok t =>
          extract_financial_features P data ++ c ++ extract_market_features P data ++
            t ++ extract_team_features P data ++ extract_product_features P data

/-! ### sklearn wrappers -/

/-- A fitted (or unfitted) `StandardScaler`: `fitted` models
`hasattr(scaler, "mean_")`. -/
structure SkScaler where
  fitted : Bool
  mean : List ℚ
  scale : List ℚ

/-- `StandardScaler.transform` on a single row: raises if unfitted or if the
row width disagrees with the fitted width, else maps `x ↦ (x - mean)/scale`
columnwise. -/
def scaler_transform (sc : SkScaler) (x : List ℚ) : Except String (List ℚ) :=
  if sc.fitted = false then
    Except.error "This StandardScaler instance is not fitted yet"
  else if x.length ≠ sc.mean.length then
    Except.error "X has a different number of features than during fitting"
  else
    Except.ok ((x.zip (sc.mean.zip sc.scale)).map (fun p => (p.1 - p.2.1) / p.2.2))

/-- A fitted `LabelEncoder`: its sorted class vocabulary. -/
structure SkLabelEncoder where
  classes : List String
deriving DecidableEq

def stringLe (a b : String) : Bool :=
  decide (a ≤ b)

/-- `LabelEncoder.fit`: sorted unique class list (`np.unique`). -/
def label_encoder_fit (vals : List String) : SkLabelEncoder :=
  SkLabelEncoder.mk ((vals.mergeSort stringLe).destutter (· ≠ ·))

/-- `LabelEncoder.transform` on one value: its index in the fitted classes,
`none` modelling the `ValueError` raised on an unseen category. -/
def label_encoder_transform (e : SkLabelEncoder) (s : String) : Option ℕ :=
  e.classes.indexOf? s

/-- The fitted estimator, abstracted to oracles for its predictions and its
fitted attributes.  `coefsAttr` models `coefs_` (`none` = attribute absent;
the list holds one weight matrix per layer, a matrix being a list of
per-input-unit rows).  `coefAttr` models `coef_` (`none` = attribute absent,
`some none` = attribute present with value `None`, `some (some m)` = a
class-by-feature coefficient matrix). -/
structure SkModel where
  predictFn : List ℚ → ℚ
  predictProbaFn : List ℚ → List ℚ
  decisionFn : List ℚ → List ℚ
  featureImportancesAttr : List ℚ
  coefsAttr : Option (List (List (List ℚ)))
  coefAttr : Option (Option (List (List ℚ)))

/-- `np.max` over a list, raising on an empty array. -/
def npMax (l : List ℚ) : Except String ℚ :=
  match l with
  | [] => Except.error "zero-size array to reduction operation maximum which has no identity"
  | x :: xs => Except.ok (xs.foldl max x)

/-! ### Shared categorical vocabulary and preprocessing
(identical source text in `decision_tree.py`, `neural_network.py`, `qda.py`) -/

/-- `_get_common_values`. -/
def _get_common_values (column : String) : List String :=
  if column = "funding_stage" then
    ["Pre-Seed", "Seed", "Series A", "Series B", "Series C", "Later Stage"]
  else if column = "sector" then
    ["AI/ML", "FinTech", "HealthTech", "E-commerce", "SaaS", "Biotech", "CleanTech"]
  else if column = "competition_level" then
    ["low", "medium", "high"]
  else if column = "geography" then
    ["North America", "Europe", "Asia", "Other"]
  else if column = "business_model" then
    ["B2B", "B2C", "B2B2C", "Marketplace", "SaaS", "Hardware"]
  else
    ["unknown", "other", "standard"]

/-- An input instance for the model layer, as a dict in insertion order.
String values are the categorical columns (object dtype); `None`/`date`
values fall to `pd.to_numeric(errors="coerce").fillna(0)`. -/
def Instance : Type := List (String × RawVal)

/-- `preprocess_features`: fits missing encoders against the fixed
vocabulary, encodes categoricals (unseen category → 0), coerces to numeric,
scales when the scaler is fitted.  Returns the processed row together with
the updated encoder registry (the Python method mutates
`self.label_encoders`).  A scaling failure takes the `except` branch, which
returns `np.zeros(len(feature_names) if feature_names else 10)`. -/
def preprocess_features (encs : List (String × SkLabelEncoder)) (sc : SkScaler)
    (feature_names : List String) (features : Instance) :
    List ℚ × List (String × SkLabelEncoder) :=
  let encs2 := features.foldl
    (fun acc p =>
      match p.2 with
      | RawVal.str _ =>
          if (acc.lookup p.1).isSome then acc
          else acc ++ [(p.1, label_encoder_fit (_get_common_values p.1))]
      | _ => acc) encs
  let row := features.map
    (fun p =>
      match p.2 with
      | RawVal.num q => q
      | RawVal.str s =>
          match encs2.lookup p.1 with
          | some e =>
              match label_encoder_transform e s with
              | some i => (i : ℚ)
              | none => 0
          | none => 0
      | _ => 0)
  if sc.fitted then
    match scaler_transform sc row with
    | Except.ok r => (r, encs2)
    | Except.error _ =>
        (List.replicate (if feature_names.isEmpty then 10 else feature_names.length) 0, encs2)
  else (row, encs2)

/-! ### Model variant states -/

/-- `DecisionTreeModel` instance state (base-class attributes included). -/
structure DecisionTreeModelState where
  model_name : String
  model_type : String
  version : String
  description : String
  model : SkModel
  scaler : SkScaler
  label_encoders : List (String × SkLabelEncoder)
  feature_names : List String
  performance_metrics : List (String × ℚ)
  training_date : Option ℚ
  is_trained : Bool

/-- `RandomForestModel` instance state (uses the base class storage
`self._model`; no scaler or encoders exist on this variant). -/
structure RandomForestModelState where
  model_name : String
  model_type : String
  version : String
  description : String
  feature_names : List String
  performance_metrics : List (String × ℚ)
  training_date : Option ℚ
  is_trained : Bool
  _model : SkModel

/-- `NeuralNetworkModel` instance state (its `__init__` never completes the
base initializer, so only the attributes it assigns itself exist). -/
structure NeuralNetworkModelState where
  model_type : String
  model_name : String
  version : String
  model : SkModel
  scaler : SkScaler
  label_encoders : List (String × SkLabelEncoder)
  feature_names : List String
  is_trained : Bool

/-- `QDAModel` instance state (as for the neural network, only its own
attributes; in particular there is no `model_type` attribute). -/
structure QDAModelState where
  model_name : String
  version : String
  model : SkModel
  scaler : SkScaler
  label_encoders : List (String × SkLabelEncoder)
  feature_names : List String
  is_trained : Bool

/-- Prediction payloads returned by the variants' `predict`. -/
inductive PredOut where
  | classifierOut (prediction : ℤ) (confidence : ℚ) (probabilities : List ℚ)
      (model_name model_version : String)
  | regressorOut (prediction : ℚ) (model_name model_version : String)
  | qdaOut (prediction : ℤ) (confidence : ℚ) (probabilities : List ℚ)
      (decision_function : List ℚ) (model_name model_version : String)
  | intOut (v : ℤ)
deriving DecidableEq

/-- `pd.DataFrame([features]).values` as consumed by a numeric-only sklearn
call: a string cell makes the conversion raise. -/
def rawRow (features : Instance) : Except String (List ℚ) :=
  if features.all (fun p => match p.2 with | RawVal.num _ => true | _ => false) then
    Except.ok (features.map (fun p => match p.2 with | RawVal.num q => q | _ => 0))
  else Except.error "could not convert string to float"

/-- `BaseModel.validate_features`. -/
def validate_features (feature_names : List String) (features : Instance) : Bool :=
  if feature_names.isEmpty then true
  else feature_names.all (fun n => (features.lookup n).isSome)

/-! ### predict / predict_proba -/

/-- `DecisionTreeModel.predict`: untrained → error payload; otherwise the raw
dict row is scaled directly (no preprocessing step is invoked here) and the
classifier or regressor branch is taken; any exception is caught and returned
as an error payload. -/
def dt_predict (s : DecisionTreeModelState) (features : Instance) : PyResult PredOut :=
  if s.is_trained = false then PyResult.errorPayload "Model not trained"
  else
    match (match rawRow features with
           | Except.error e => Except.error e
           | Except.ok row => scaler_transform s.scaler row) with
    | Except.error e => PyResult.errorPayload e
    | Except.ok xs =>
        if s.model_type = "classifier" then
          match npMax (s.model.predictProbaFn xs) with
          | Except.error e => PyResult.errorPayload e
          | Except.ok conf =>
              PyResult.val (PredOut.classifierOut (pyTrunc (s.model.predictFn xs)) conf
                (s.model.predictProbaFn xs) s.model_name s.version)
        else
          PyResult.val (PredOut.regressorOut (s.model.predictFn xs) s.model_name s.version)

/-- `DecisionTreeModel.predict_proba`: untrained → `None`; classifier → max
class probability; regressor → `None`; exceptions → `None`. -/
def dt_predict_proba (s : DecisionTreeModelState) (features : Instance) : PyResult ℚ :=
  if s.is_trained = false then PyResult.noneVal
  else
    match (match rawRow features with
           | Except.error e => Except.error e
           | Except.ok row => scaler_transform s.scaler row) with
    | Except.error _ => PyResult.noneVal
    | Except.ok xs =>
        if s.model_type = "classifier" then
          match npMax (s.model.predictProbaFn xs) with
          | Except.error _ => PyResult.noneVal
          | Except.ok conf => PyResult.val conf
        else PyResult.noneVal

/-- `RandomForestModel.predict`: untrained → raises; invalid features →
raises; the `except` clause re-raises, so every failure propagates. -/
def rf_predict (s : RandomForestModelState) (features : Instance) : PyResult PredOut :=
  if s.is_trained = false then
    PyResult.raised "Model must be trained before making predictions"
  else if validate_features s.feature_names features = false then
    PyResult.raised "Invalid features provided"
  else
    match rawRow features with
    | Except.error e => PyResult.raised e
    | Except.ok row => PyResult.val (PredOut.intOut (pyTrunc (s._model.predictFn row)))

/-- `RandomForestModel.predict_proba`: untrained → raises; otherwise
`predict_proba(df)[0][1]` (index 1 raises when fewer than two classes). -/
def rf_predict_proba (s : RandomForestModelState) (features : Instance) : PyResult ℚ :=
  if s.is_trained = false then
    PyResult.raised "Model must be trained before making predictions"
  else
    match rawRow features with
    | Except.error e => PyResult.raised e
    | Except.ok row =>
        match (s._model.predictProbaFn row).get? 1 with
        | none => PyResult.raised "index 1 is out of bounds"
        | some p => PyResult.val p

/-- `NeuralNetworkModel.predict`: untrained → error payload; preprocesses
(mutating the encoder registry), scales again, then the classifier or
regressor branch; exceptions → error payload. -/
def nn_predict (s : NeuralNetworkModelState) (features : Instance) :
    PyResult PredOut × NeuralNetworkModelState :=
  if s.is_trained = false then (PyResult.errorPayload "Model not trained", s)
  else
    let pe := preprocess_features s.label_encoders s.scaler s.feature_names features
    let s2 := { s with label_encoders := pe.2 }
    match scaler_transform s.scaler pe.1 with
    | Except.error e => (PyResult.errorPayload e, s2)
    | Except.ok xs =>
        if s.model_type = "classifier" then
          match npMax (s.model.predictProbaFn xs) with
          | Except.error e => (PyResult.errorPayload e, s2)
          | Except.ok conf =>
              (PyResult.val (PredOut.classifierOut (pyTrunc (s.model.predictFn xs)) conf
                (s.model.predictProbaFn xs) s.model_name s.version), s2)
        else
          (PyResult.val (PredOut.regressorOut (s.model.predictFn xs) s.model_name s.version), s2)

/-- `QDAModel.predict`: untrained → error payload; preprocesses, scales,
then prediction, probabilities, max confidence and decision function;
exceptions → error payload. -/
def qda_predict (s : QDAModelState) (features : Instance) :
    PyResult PredOut × QDAModelState :=
  if s.is_trained = false then (PyResult.errorPayload "Model not trained", s)
  else
    let pe := preprocess_features s.label_encoders s.scaler s.feature_names features
    let s2 := { s with label_encoders := pe.2 }
    match scaler_transform s.scaler pe.1 with
    | Except.error e => (PyResult.errorPayload e, s2)
    | Except.ok xs =>
        match npMax (s.model.predictProbaFn xs) with
        | Except.error e => (PyResult.errorPayload e, s2)
        | Except.ok conf =>
            (PyResult.val (PredOut.qdaOut (pyTrunc (s.model.predictFn xs)) conf
              (s.model.predictProbaFn xs) (s.model.decisionFn xs) s.model_name s.version), s2)

/-! ### get_feature_importance -/

/-- `DecisionTreeModel.get_feature_importance`: untrained → empty dict, else
`dict(zip(feature_names, feature_importances_))`. -/
def dt_get_feature_importance (s : DecisionTreeModelState) : PyResult (List (String × ℚ)) :=
  if s.is_trained = false then PyResult.val []
  else PyResult.val (s.feature_names.zip s.model.featureImportancesAttr)

/-- `sorted(items, key=value, reverse=True)`: stable descending sort. -/
def sortByValDesc (l : List (String × ℚ)) : List (String × ℚ) :=
  l.mergeSort (fun a b => decide (b.2 ≤ a.2))

/-- `RandomForestModel.get_feature_importance`: untrained → raises
`ValueError`; else the zipped importances sorted descending by score. -/
def rf_get_feature_importance (s : RandomForestModelState) : PyResult (List (String × ℚ)) :=
  if s.is_trained = false then
    PyResult.raised "Model must be trained to get feature importance"
  else PyResult.val (sortByValDesc (s.feature_names.zip s._model.featureImportancesAttr))

/-- Row means (`np.mean(_, axis=1)` on a features-by-hidden matrix). -/
def rowMeans (m : List (List ℚ)) : List ℚ :=
  m.map (fun r => r.sum / (r.length : ℚ))

/-- `NeuralNetworkModel.get_feature_importance`: untrained or no `coefs_`
attribute → empty dict; else the per-feature mean absolute input-layer
weight, normalized to sum to 1, zipped with the feature names. -/
def nn_get_feature_importance (s : NeuralNetworkModelState) : PyResult (List (String × ℚ)) :=
  if s.is_trained = false || s.model.coefsAttr.isNone then PyResult.val []
  else
    match s.model.coefsAttr with
    | none => PyResult.val []
    | some [] => PyResult.raised "index 0 is out of bounds for axis 0 with size 0"
    | some (w0 :: _) =>
        let fi := rowMeans (w0.map (fun r => r.map (fun x => |x|)))
        let ssum := fi.sum
        PyResult.val (s.feature_names.zip (fi.map (fun x => x / ssum)))

/-- Columnwise addition (`zipWith (+)`). -/
def addRows (a b : List ℚ) : List ℚ :=
  List.zipWith (· + ·) a b

/-- Column sums of a matrix (`np.sum(_, axis=0)` for rectangular input). -/
def colSums : List (List ℚ) → List ℚ
  | [] => []
  | [r] => r
  | r :: rs => addRows r (colSums rs)

/-- `QDAModel.get_feature_importance`: untrained or no `coef_` attribute →
empty dict; `coef_` present and not `None` → mean absolute coefficient per
class, normalized to sum to 1; `coef_` present but `None` → uniform `1/n`
(a zero feature count raises `ZeroDivisionError`, caught → empty dict). -/
def qda_get_feature_importance (s : QDAModelState) : PyResult (List (String × ℚ)) :=
  if s.is_trained = false || s.model.coefAttr.isNone then PyResult.val []
  else
    match s.model.coefAttr with
    | none => PyResult.val []
    | some (some m) =>
        let fi := (colSums (m.map (fun r => r.map (fun x => |x|)))).map
          (fun x => x / (m.length : ℚ))
        let ssum := fi.sum
        PyResult.val (s.feature_names.zip (fi.map (fun x => x / ssum)))
    | some none =>
        if s.feature_names.length = 0 then PyResult.val []
        else PyResult.val (s.feature_names.map (fun n => (n, (1 : ℚ) / (s.feature_names.length : ℚ))))

/-! ### save / load -/

/-- The persisted artifact: the union of the keys any variant writes, each
`none` when the variant's bundle omits that key. -/
structure Bundle where
  model : Option SkModel := none
  model_name : Option String := none
  model_type : Option String := none
  version : Option String := none
  feature_names : Option (List String) := none
  performance_metrics : Option (List (String × ℚ)) := none
  training_date : Option (Option ℚ) := none
  is_trained : Option Bool := none
  scaler : Option SkScaler := none
  label_encoders : Option (List (String × SkLabelEncoder)) := none

/-- `BaseModel.save_model` (used by the random forest variant): pickles
model, names, metrics, dates and flag — no scaler or encoder entries. -/
def base_save_model (s : RandomForestModelState) : Bundle :=
  { model := some s._model, model_name := some s.model_name,
    model_type := some s.model_type, version := some s.version,
    feature_names := some s.feature_names,
    performance_metrics := some s.performance_metrics,
    training_date := some s.training_date, is_trained := some s.is_trained }

/-- `BaseModel.load_model`: reads the eight base keys (a missing key raises
`KeyError`, caught → failure; the partial mutation Python performs before
the failure is not depended on by any claim and is not modelled). -/
def base_load_model (b : Bundle) (s : RandomForestModelState) :
    Except String RandomForestModelState :=
  match b.model, b.model_name, b.model_type, b.version, b.feature_names,
        b.performance_metrics, b.training_date, b.is_trained with
  | some m, some mn, some mt, some v, some fn, some pm, some td, some it =>
      Except.ok { s with _model := m, model_name := mn, model_type := mt,
                         version := v, feature_names := fn,
                         performance_metrics := pm, training_date := td,
                         is_trained := it }
  | _, _, _, _, _, _, _, _ => Except.error "KeyError"

/-- `DecisionTreeModel.save_model`. -/
def dt_save_model (s : DecisionTreeModelState) : Bundle :=
  { model := some s.model, scaler := some s.scaler,
    label_encoders := some s.label_encoders,
    feature_names := some s.feature_names, model_name := some s.model_name,
    version := some s.version, model_type := some s.model_type,
    is_trained := some s.is_trained }

/-- `DecisionTreeModel.load_model`. -/
def dt_load_model (b : Bundle) (s : DecisionTreeModelState) :
    Except String DecisionTreeModelState :=
  match b.model, b.scaler, b.label_encoders, b.feature_names, b.model_name,
        b.version, b.model_type, b.is_trained with
  | some m, some sc, some le, some fn, some mn, some v, some mt, some it =>
      Except.ok { s with model := m, scaler := sc, label_encoders := le,
                         feature_names := fn, model_name := mn, version := v,
                         model_type := mt, is_trained := it }
  | _, _, _, _, _, _, _, _ => Except.error "KeyError"

/-- `NeuralNetworkModel.save_model` (same eight keys as the decision tree). -/
def nn_save_model (s : NeuralNetworkModelState) : Bundle :=
  { model := some s.model, scaler := some s.scaler,
    label_encoders := some s.label_encoders,
    feature_names := some s.feature_names, model_name := some s.model_name,
    version := some s.version, model_type := some s.model_type,
    is_trained := some s.is_trained }

/-- `NeuralNetworkModel.load_model`. -/
def nn_load_model (b : Bundle) (s : NeuralNetworkModelState) :
    Except String NeuralNetworkModelState :=
  match b.model, b.scaler, b.label_encoders, b.feature_names, b.model_name,
        b.version, b.model_type, b.is_trained with
  | some m, some sc, some le, some fn, some mn, some v, some mt, some it =>
      Except.ok { s with model := m, scaler := sc, label_encoders := le,
                         feature_names := fn, model_name := mn, version := v,
                         model_type := mt, is_trained := it }
  | _, _, _, _, _, _, _, _ => Except.error "KeyError"

/-- `QDAModel.save_model`: only seven keys — there is no `model_type` entry. -/
def qda_save_model (s : QDAModelState) : Bundle :=
  { model := some s.model, scaler := some s.scaler,
    label_encoders := some s.label_encoders,
    feature_names := some s.feature_names, model_name := some s.model_name,
    version := some s.version, is_trained := some s.is_trained }

/-- `QDAModel.load_model`. -/
def qda_load_model (b : Bundle) (s : QDAModelState) : Except String QDAModelState :=
  match b.model, b.scaler, b.label_encoders, b.feature_names, b.model_name,
        b.version, b.is_trained with
  | some m, some sc, some le, some fn, some mn, some v, some it =>
      Except.ok { s with model := m, scaler := sc, label_encoders := le,
                         feature_names := fn, model_name := mn, version := v,
                         is_trained := it }
  | _, _, _, _, _, _, _ => Except.error "KeyError"

/-! ### Batch operations (`BaseModel.predict_batch` / `predict_proba_batch`) -/

/-- Awaiting a call: a raised exception propagates; any other result is the
value appended to the accumulator. -/
def pyRun {α : Type} (r : PyResult α) : Except String (PyResult α) :=
  match r with
  | PyResult.raised m => Except.error m
  | r => Except.ok r

/-- `BaseModel.predict_batch`: a sequential loop over `self.predict`,
appending each result; an exception from any element aborts the batch. -/
def predict_batch {α β : Type} (predict : α → PyResult β) :
    List α → Except String (List (PyResult β))
  | [] => Except.ok []
  | f :: fs =>
      match pyRun (predict f) with
      | Except.error m => Except.error m
      | Except.ok r =>
          match predict_batch predict fs with
          | Except.error m => Except.error m
          | Except.ok rs => Except.ok (r :: rs)

/-- `BaseModel.predict_proba_batch`: the same sequential loop over
`self.predict_proba`. -/
def predict_proba_batch {α β : Type} (predict_proba : α → PyResult β) :
    List α → Except String (List (PyResult β))
  | [] => Except.ok []
  | f :: fs =>
      match pyRun (predict_proba f) with
      | Except.error m => Except.error m
      | Except.ok r =>
          match predict_proba_batch predict_proba fs with
          | Except.error m => Except.error m
          | Except.ok rs => Except.ok (r :: rs)

/-! ### Engine health check -/

/-- `str.endswith` via character lists. -/
def strEndsWith (s suf : String) : Bool :=
  charsStartWith s.toList.reverse suf.toList.reverse

/-- `BaseModel.get_dummy_features`: keyword-driven dummy value for one
feature name. -/
def dummyValue (feature : String) : RawVal :=
  if ["amount", "funding", "revenue", "valuation"].any
      (fun k => strContains feature.toLower k) then RawVal.num 1000000
  else if ["age", "years", "months"].any
      (fun k => strContains feature.toLower k) then RawVal.num 2
  else if ["count", "number", "total"].any
      (fun k => strContains feature.toLower k) then RawVal.num 5
  else if ["rate", "ratio", "percentage"].any
      (fun k => strContains feature.toLower k) then RawVal.num (1 / 10)
  else if strEndsWith feature.toLower "_categorical" then RawVal.str "category_a"
  else RawVal.num 1

/-- `BaseModel.get_dummy_features`: empty dict when no feature names, else
one dummy value per feature name. -/
def get_dummy_features (feature_names : List String) : Instance :=
  if feature_names.isEmpty then []
  else feature_names.map (fun f => (f, dummyValue f))

/-- A model as the engine's registry sees it for health checking: its
feature names and its (possibly raising) `predict`. -/
structure LoadedModel where
  feature_names : List String
  predict : Instance → PyResult PredOut

/-- The per-model status string computed inside `MLEngine.health_check`'s
loop: `"healthy"` unless the dummy prediction raises. -/
def model_health (m : LoadedModel) : String :=
  match m.predict (get_dummy_features m.feature_names) with
  | PyResult.raised e => "unhealthy: " ++ e
  | _ => "healthy"

/-- The dictionary `MLEngine.health_check` returns. -/
structure HealthReport where
  status : String
  models_loaded : ℕ
  healthy_models : ℕ
  model_status : List (String × String)
deriving DecidableEq

/-- `MLEngine.health_check`. -/
def health_check (models : List (String × LoadedModel)) : HealthReport :=
  let model_status := models.map (fun p => (p.1, model_health p.2))
  let healthy_models := (model_status.filter (fun p => p.2 == "healthy")).length
  let total_models := model_status.length
  { status := if healthy_models = total_models then "healthy" else "degraded",
    models_loaded := total_models,
    healthy_models := healthy_models,
    model_status := model_status }

/-! ### SHAP explainer -/

/-- One constructed SHAP explainer: whether it exposes `shap_values` (tree
explainers), the two value oracles (which may raise), and the attribute
`expected_value`.  For binary classification the oracle already yields the
positive class's array, as the source selects it. -/
structure ShapEntry where
  hasShapValuesMethod : Bool
  shapValuesFn : List ℚ → Except String (List ℚ)
  callFn : List ℚ → Except String (List ℚ)
  expected_value : ℚ

/-- `SHAPExplainer` state: availability flag and the per-name registry. -/
structure SHAPExplainerState where
  available : Bool
  explainers : List (String × ShapEntry)

/-- Stable ascending argsort of values, then reversed
(`np.argsort(x)[::-1]`). -/
def argsortDesc (l : List ℚ) : List ℕ :=
  ((List.range l.length).mergeSort
    (fun i j => decide (l.getD i 0 ≤ l.getD j 0))).reverse

/-- The result dict of `SHAPExplainer.explain_prediction`. -/
structure ShapExplanation where
  shap_values : List ℚ
  expected_value : ℚ
  feature_importance : List ℚ
  importance_ranking : List ℕ
  feature_names : Option (List String)
  feature_contributions : List (String × ℚ)
  ranked_features : List String
deriving DecidableEq

/-- `SHAPExplainer.explain_prediction`: backend unavailable → error payload;
unknown name → "No explainer found" error payload; else the per-feature
contributions with absolute-importance ranking, plus the name-keyed entries
when names are supplied; exceptions → error payload. -/
def shap_explain_prediction (st : SHAPExplainerState) (model_name : String)
    (features : List ℚ) (feature_names : Option (List String)) :
    PyResult ShapExplanation :=
  if st.available = false then PyResult.errorPayload "SHAP not available"
  else
    match st.explainers.lookup model_name with
    | none => PyResult.errorPayload ("No explainer found for " ++ model_name)
    | some ex =>
        match (if ex.hasShapValuesMethod then ex.shapValuesFn features
               else ex.callFn features) with
        | Except.error e => PyResult.errorPayload e
        | Except.ok sv =>
            let absShap := sv.map (fun x => |x|)
            let ranking := argsortDesc absShap
            PyResult.val
              { shap_values := sv, expected_value := ex.expected_value,
                feature_importance := absShap, importance_ranking := ranking,
                feature_names := feature_names,
                feature_contributions :=
                  match feature_names with
                  | some ns => ns.zip sv
                  | none => [],
                ranked_features :=
                  match feature_names with
                  | some ns => ranking.filterMap (fun i => ns.get? i)
                  | none => [] }

/-- Column means over a nonnegative sample-by-feature matrix
(`np.mean(np.abs(shap_values), axis=0)`). -/
def colMeansAbs (m : List (List ℚ)) : List ℚ :=
  (colSums (m.map (fun r => r.map (fun x => |x|)))).map (fun x => x / (m.length : ℚ))

/-- `SHAPExplainer.get_feature_importance`: unavailable or unknown name →
empty dict; else mean absolute SHAP value per feature (oracle errors are
caught → empty dict). -/
def shap_get_feature_importance (st : SHAPExplainerState) (model_name : String)
    (features : List (List ℚ)) (feature_names : Option (List String)) :
    PyResult (List (String × ℚ)) :=
  if st.available = false then PyResult.val []
  else
    match st.explainers.lookup model_name with
    | none => PyResult.val []
    | some ex =>
        match (features.mapM (fun row =>
                if ex.hasShapValuesMethod then ex.shapValuesFn row else ex.callFn row)) with
        | Except.error _ => PyResult.val []
        | Except.ok rows =>
            let meanAbs := colMeansAbs rows
            match feature_names with
            | some ns => PyResult.val (ns.zip meanAbs)
            | none =>
                PyResult.val ((List.range meanAbs.length).zip meanAbs |>.map
                  (fun p => ("feature_" ++ toString p.1, p.2)))

/-- The result dict of `SHAPExplainer.create_summary_plot_data`. -/
structure ShapPlotData where
  shap_values : List (List ℚ)
  feature_values : List (List ℚ)
  feature_importance : List ℚ
  feature_indices : List ℕ
deriving DecidableEq

/-- `SHAPExplainer.create_summary_plot_data`: unavailable → error payload;
unknown name → "No explainer found" error payload; else columns of the
`max_display` most important features (oracle errors → error payload). -/
def shap_create_summary_plot_data (st : SHAPExplainerState) (model_name : String)
    (features : List (List ℚ)) (max_display : ℕ) : PyResult ShapPlotData :=
  if st.available = false then PyResult.errorPayload "SHAP not available"
  else
    match st.explainers.lookup model_name with
    | none => PyResult.errorPayload ("No explainer found for " ++ model_name)
    | some ex =>
        match (features.mapM (fun row =>
                if ex.hasShapValuesMethod then ex.shapValuesFn row else ex.callFn row)) with
        | Except.error e => PyResult.errorPayload e
        | Except.ok rows =>
            let fi := colMeansAbs rows
            let top := ((argsortDesc fi).take max_display)
            PyResult.val
              { shap_values := rows.map (fun r => top.filterMap (fun i => r.get? i)),
                feature_values := features.map (fun r => top.filterMap (fun i => r.get? i)),
                feature_importance := top.filterMap (fun i => fi.get? i),
                feature_indices := top }

/-! ### LIME explainer -/

/-- The raw object `lime_tabular` explainers return from `explain_instance`
(an external library, modelled as an oracle that may raise). -/
structure LimeRawExplanation where
  as_list : List (String × ℚ)
  local_pred : ℚ
  intercept : List ℚ
  score : ℚ
  as_map_pos : Option (List (ℕ × ℚ))
deriving DecidableEq

/-- One constructed LIME tabular explainer registry entry. -/
structure LimeEntry where
  explain_instance : List ℚ → (List ℚ → List ℚ) → ℕ → ℕ → Except String LimeRawExplanation
  feature_names : List String
  class_names : Option (List String)

/-- `LIMEExplainer` state: availability flag, the per-name registry, and the
`np.random.choice` oracle used when sampling instances. -/
structure LIMEExplainerState where
  available : Bool
  explainers : List (String × LimeEntry)
  randomChoice : ℕ → ℕ → List ℕ

/-- `LIMEExplainer._extract_feature_name`: the first known feature name that
occurs in the description, else the first whitespace token of the
description. -/
def _extract_feature_name (feature_desc : String) (feature_names : List String) : String :=
  match feature_names.find? (fun n => strContains feature_desc n) with
  | some n => n
  | none =>
      if strContains feature_desc " " then
        ((feature_desc.splitOn " ").headD feature_desc)
      else feature_desc

/-- Python dict assignment `d[k] = v` on an association list: overwrite an
existing key in place, else append. -/
def dictInsert (l : List (String × ℚ)) (k : String) (v : ℚ) : List (String × ℚ) :=
  if (l.lookup k).isSome then l.map (fun p => if p.1 = k then (k, v) else p)
  else l ++ [(k, v)]

/-- The result dict of `LIMEExplainer.explain_prediction`. -/
structure LimeExplanationResult where
  explanation_list : List (String × ℚ)
  local_prediction : ℚ
  intercept : ℚ
  score : ℚ
  local_exp : List (ℕ × ℚ)
  feature_contributions : List (String × ℚ)
deriving DecidableEq

/-- `LIMEExplainer.explain_prediction`: unavailable → error payload; unknown
name → "No explainer found" error payload; else the explanation list with a
name→contribution dict built through `_extract_feature_name`; oracle
exceptions → error payload. -/
def lime_explain_prediction (st : LIMEExplainerState) (model_name : String)
    (inst : List ℚ) (predict_fn : List ℚ → List ℚ)
    (num_features num_samples : ℕ) : PyResult LimeExplanationResult :=
  if st.available = false then PyResult.errorPayload "LIME not available"
  else
    match st.explainers.lookup model_name with
    | none => PyResult.errorPayload ("No explainer found for " ++ model_name)
    | some info =>
        match info.explain_instance inst predict_fn num_features num_samples with
        | Except.error e => PyResult.errorPayload e
        | Except.ok expl =>
            PyResult.val
              { explanation_list := expl.as_list,
                local_prediction := expl.local_pred,
                intercept := (expl.intercept.get? 1).getD 0,
                score := expl.score,
                local_exp := expl.as_map_pos.getD [],
                feature_contributions :=
                  expl.as_list.foldl
                    (fun acc p =>
                      dictInsert acc (_extract_feature_name p.1 info.feature_names) p.2)
                    [] }

/-- `LIMEExplainer.explain_prediction_html`: the guards return marker HTML
strings rather than raising. -/
def lime_explain_prediction_html (st : LIMEExplainerState) (model_name : String)
    (inst : List ℚ) (predict_fn : List ℚ → List ℚ)
    (num_features num_samples : ℕ) (render : LimeRawExplanation → String) : String :=
  if st.available = false then "<p>LIME not available</p>"
  else
    match st.explainers.lookup model_name with
    | none => "<p>No explainer found for " ++ model_name ++ "</p>"
    | some info =>
        match info.explain_instance inst predict_fn num_features num_samples with
        | Except.error e => "<p>Error generating explanation: " ++ e ++ "</p>"
        | Except.ok expl => render expl

/-- `LIMEExplainer.get_feature_importance`: unavailable or unknown name →
empty dict; else at most 20 sampled instances are explained and the mean
absolute contribution per known feature name is returned (0 for a feature
that never appeared). -/
def lime_get_feature_importance (st : LIMEExplainerState) (model_name : String)
    (instances : List (List ℚ)) (predict_fn : List ℚ → List ℚ)
    (num_features num_samples : ℕ) : PyResult (List (String × ℚ)) :=
  if st.available = false then PyResult.val []
  else
    match st.explainers.lookup model_name with
    | none => PyResult.val []
    | some info =>
        let sample_instances :=
          if 20 < instances.length then
            (st.randomChoice instances.length 20).filterMap (fun i => instances.get? i)
          else instances
        let contribsOf := fun inst =>
          match lime_explain_prediction st model_name inst predict_fn num_features num_samples with
          | PyResult.val r => r.feature_contributions
          | _ => []
        let all_contributions := info.feature_names.map
          (fun n => (n, sample_instances.foldl
            (fun acc inst =>
              acc ++ (((contribsOf inst).filter (fun p => p.1 == n)).map (fun p => |p.2|)))
            []))
        PyResult.val (all_contributions.map
          (fun p => (p.1, if p.2.isEmpty then 0 else p.2.sum / (p.2.length : ℚ))))

/-! ### Concrete example states used by witnesses and counterexamples -/

/-- Concrete primitives: a parser that recognizes one future date
(2030-01-01, day number 21915) with "now" at day number 20373 of 2025-10. -/
def primsEx : Prims :=
  { floatOfString := fun _ => none,
    parseYMD := fun s => if s = "2030-01-01" then some ⟨2030, 1, 21915⟩ else none,
    nowYear := 2025, nowMonth := 10, nowDays := 20373 }

/-- The raw input with every optional field absent. -/
def emptyData : RawData := fun _ => none

/-- A raw input whose competition level is outside the known vocabulary. -/
def dataC4 : RawData :=
  fun k =>
    if k = "competition_level" then some (RawVal.str "extreme")
    else if k = "funding_stage" then some (RawVal.str "Series Z")
    else if k = "sector" then some (RawVal.str "SpaceTech")
    else if k = "business_model" then some (RawVal.str "Franchise")
    else none

def skModelEx : SkModel :=
  { predictFn := fun _ => 1, predictProbaFn := fun _ => [1/4, 3/4],
    decisionFn := fun _ => [0], featureImportancesAttr := [3/4, 1/4],
    coefsAttr := none, coefAttr := none }

def scalerUnfitEx : SkScaler := { fitted := false, mean := [], scale := [] }

def scalerFit2Ex : SkScaler := { fitted := true, mean := [0, 0], scale := [1, 1] }

def instEx : Instance := [("a", RawVal.num 1), ("b", RawVal.num 2)]

def dtUntrainedEx : DecisionTreeModelState :=
  { model_name := "decision_tree", model_type := "classifier", version := "1.0.0",
    description := "", model := skModelEx, scaler := scalerUnfitEx,
    label_encoders := [], feature_names := [], performance_metrics := [],
    training_date := none, is_trained := false }

def dtTrainedRegEx : DecisionTreeModelState :=
  { dtUntrainedEx with model_type := "regressor", scaler := scalerFit2Ex,
                       feature_names := ["a", "b"], is_trained := true }

def dtTrainedEx : DecisionTreeModelState :=
  { dtUntrainedEx with scaler := scalerFit2Ex, feature_names := ["a", "b"],
                       is_trained := true }

def rfUntrainedEx : RandomForestModelState :=
  { model_name := "random_forest", model_type := "ensemble", version := "1.0.0",
    description := "Random Forest model for startup success prediction",
    feature_names := ["a", "b"], performance_metrics := [], training_date := none,
    is_trained := false, _model := skModelEx }

def rfTrainedEx : RandomForestModelState :=
  { rfUntrainedEx with is_trained := true }

def nnModelEx : SkModel :=
  { skModelEx with coefsAttr := some [[[1], [3]]] }

def nnUntrainedEx : NeuralNetworkModelState :=
  { model_type := "classifier", model_name := "neural_network", version := "1.0.0",
    model := skModelEx, scaler := scalerUnfitEx, label_encoders := [],
    feature_names := [], is_trained := false }

def nnTrainedEx : NeuralNetworkModelState :=
  { nnUntrainedEx with model := nnModelEx, scaler := scalerFit2Ex,
                       feature_names := ["a", "b"], is_trained := true }

def qdaCoefModelEx : SkModel :=
  { skModelEx with coefAttr := some (some [[1, 3]]) }

def qdaCoefNoneModelEx : SkModel :=
  { skModelEx with coefAttr := some none }

def qdaUntrainedEx : QDAModelState :=
  { model_name := "qda", version := "1.0.0", model := skModelEx,
    scaler := scalerUnfitEx, label_encoders := [], feature_names := [],
    is_trained := false }

def qdaTrainedEx : QDAModelState :=
  { qdaUntrainedEx with model := qdaCoefModelEx, scaler := scalerFit2Ex,
                        feature_names := ["a", "b"], is_trained := true }

def qdaCoefNoneEx : QDAModelState :=
  { qdaTrainedEx with model := qdaCoefNoneModelEx }

def qdaNoCoefEx : QDAModelState :=
  { qdaTrainedEx with model := skModelEx }

def pBatchEx : ℕ → PyResult ℕ := fun n => PyResult.val (n + 1)

def lmHealthyEx : LoadedModel :=
  { feature_names := ["x"], predict := fun _ => PyResult.val (PredOut.intOut 1) }

def lmRaisingEx : LoadedModel :=
  { feature_names := ["x"], predict := fun _ => PyResult.raised "boom" }

def healthModelsEx : List (String × LoadedModel) :=
  [("m1", lmHealthyEx), ("m2", lmRaisingEx)]

def shapUnavailEx : SHAPExplainerState := { available := false, explainers := [] }

def shapEmptyEx : SHAPExplainerState := { available := true, explainers := [] }

def limeUnavailEx : LIMEExplainerState :=
  { available := false, explainers := [], randomChoice := fun _ _ => [] }

def limeEmptyEx : LIMEExplainerState :=
  { available := true, explainers := [], randomChoice := fun _ _ => [] }

/-! ### Helper lemmas -/

theorem length_filter_eq_length_iff_all {α : Type} (l : List α) (p : α → Bool) :
    (l.filter p).length = l.length ↔ ∀ a ∈ l, p a := by
  induction l with
  | nil => simp
  | cons x xs ih =>
    by_cases h : p x
    · simp [h, ih]
    · simp only [List.filter_cons, h, Bool.false_eq_true, ite_false, List.length_cons]
      constructor
      · intro hl
        have := List.length_filter_le p xs
        omega
      · intro hall
        exact absurd (hall x (by simp)) (by simp [h])

theorem sum_map_div (l : List ℚ) (c : ℚ) :
    (l.map (fun x => x / c)).sum = l.sum / c := by
  induction l with
  | nil => simp
  | cons x xs ih => simp [ih, add_div]

theorem predict_batch_ok_map {α β : Type} (p : α → PyResult β) :
    ∀ (L : List α) (out : List (PyResult β)),
      predict_batch p L = Except.ok out → out = L.map p := by
  intro L
  induction L with
  | nil =>
    intro out h
    simp only [predict_batch] at h
    cases h
    rfl
  | cons f fs ih =>
    intro out h
    unfold predict_batch at h
    cases hp : p f <;> simp only [hp, pyRun] at h
    case raised m => cases h
    all_goals
      cases hr : predict_batch p fs <;> rw [hr] at h
    case val.error => cases h
    case noneVal.error => cases h
    case errorPayload.error => cases h
    case val.ok rs =>
      cases h
      simp [List.map_cons, ih rs hr, hp]
    case noneVal.ok rs =>
      cases h
      simp [List.map_cons, ih rs hr, hp]
    case errorPayload.ok rs =>
      cases h
      simp [List.map_cons, ih rs hr, hp]

theorem predict_proba_batch_ok_map {α β : Type} (p : α → PyResult β) :
    ∀ (L : List α) (out : List (PyResult β)),
      predict_proba_batch p L = Except.ok out → out = L.map p := by
  intro L
  induction L with
  | nil =>
    intro out h
    simp only [predict_proba_batch] at h
    cases h
    rfl
  | cons f fs ih =>
    intro out h
    unfold predict_proba_batch at h
    cases hp : p f <;> simp only [hp, pyRun] at h
    case raised m => cases h
    all_goals
      cases hr : predict_proba_batch p fs <;> rw [hr] at h
    case val.error => cases h
    case noneVal.error => cases h
    case errorPayload.error => cases h
    case val.ok rs =>
      cases h
      simp [List.map_cons, ih rs hr, hp]
    case noneVal.ok rs =>
      cases h
      simp [List.map_cons, ih rs hr, hp]
    case errorPayload.ok rs =>
      cases h
      simp [List.map_cons, ih rs hr, hp]

theorem addRows_nonneg : ∀ (a b : List ℚ), (∀ x ∈ a, 0 ≤ x) → (∀ x ∈ b, 0 ≤ x) →
    ∀ y ∈ addRows a b, 0 ≤ y := by
  intro a
  induction a with
  | nil =>
    intro b _ _ y hy
    simp [addRows] at hy
  | cons x xs ih =>
    intro b hx hb y hy
    cases b with
    | nil => simp [addRows] at hy
    | cons z zs =>
      simp only [addRows, List.zipWith_cons_cons, List.mem_cons] at hy
      rcases hy with h | h
      · subst h
        exact add_nonneg (hx x (by simp)) (hb z (by simp))
      · exact ih zs (fun u hu => hx u (by simp [hu]))
          (fun u hu => hb u (by simp [hu])) y (by simpa [addRows] using h)

theorem colSums_nonneg : ∀ m : List (List ℚ), (∀ r ∈ m, ∀ x ∈ r, 0 ≤ x) →
    ∀ y ∈ colSums m, 0 ≤ y := by
  intro m
  induction m with
  | nil =>
    intro _ y hy
    simp [colSums] at hy
  | cons r rs ih =>
    intro hall y hy
    cases rs with
    | nil => exact hall r (by simp) y (by simpa [colSums] using hy)
    | cons r2 rs2 =>
      have hy2 : y ∈ addRows r (colSums (r2 :: rs2)) := hy
      exact addRows_nonneg r (colSums (r2 :: rs2)) (hall r (by simp))
        (ih (fun u hu => hall u (by simp [hu]))) y hy2

theorem colSums_length (n : ℕ) : ∀ m : List (List ℚ), m ≠ [] →
    (∀ r ∈ m, r.length = n) → (colSums m).length = n := by
  intro m
  induction m with
  | nil =>
    intro h
    exact absurd rfl h
  | cons r rs ih =>
    intro _ hall
    cases rs with
    | nil => simpa [colSums] using hall r (by simp)
    | cons r2 rs2 =>
      show (addRows r (colSums (r2 :: rs2))).length = n
      rw [addRows, List.length_zipWith,
        hall r (by simp),
        ih (by simp) (fun x hx => hall x (by simp [hx]))]
      simp

theorem zipWith_add_getD : ∀ (a b : List ℚ), a.length = b.length → ∀ j : ℕ,
    (List.zipWith (· + ·) a b).getD j 0 = a.getD j 0 + b.getD j 0 := by
  intro a
  induction a with
  | nil =>
    intro b h j
    cases b with
    | nil => simp
    | cons z zs => simp at h
  | cons x xs ih =>
    intro b h j
    cases b with
    | nil => simp at h
    | cons z zs =>
      cases j with
      | zero => simp
      | succ k => simpa using ih zs (by simpa using h) k

theorem colSums_getD (n : ℕ) : ∀ m : List (List ℚ), (∀ r ∈ m, r.length = n) →
    ∀ j : ℕ, (colSums m).getD j 0 = (m.map (fun r => r.getD j 0)).sum := by
  intro m
  induction m with
  | nil =>
    intro _ j
    simp [colSums]
  | cons r rs ih =>
    intro hall j
    cases rs with
    | nil => simp [colSums]
    | cons r2 rs2 =>
      show (addRows r (colSums (r2 :: rs2))).getD j 0 = _
      rw [addRows, zipWith_add_getD r (colSums (r2 :: rs2))
          (by
            rw [hall r (by simp),
              colSums_length n (r2 :: rs2) (by simp)
                (fun x hx => hall x (by simp [hx]))]) j,
        ih (fun x hx => hall x (by simp [hx])) j]
      simp

theorem map_div_getD (l : List ℚ) (c : ℚ) : ∀ j : ℕ,
    (l.map (fun x => x / c)).getD j 0 = l.getD j 0 / c := by
  induction l with
  | nil =>
    intro j
    simp
  | cons x xs ih =>
    intro j
    cases j with
    | zero => simp
    | succ k => simpa using ih k

theorem map_abs_getD (r : List ℚ) : ∀ j : ℕ,
    (r.map (fun x => |x|)).getD j 0 = |r.getD j 0| := by
  induction r with
  | nil =>
    intro j
    simp
  | cons x xs ih =>
    intro j
    cases j with
    | zero => simp
    | succ k => simpa using ih k

theorem rowMeans_nonneg (m : List (List ℚ)) :
    ∀ y ∈ rowMeans (m.map (fun r => r.map (fun x => |x|))), 0 ≤ y := by
  intro y hy
  simp only [rowMeans, List.map_map, List.mem_map] at hy
  rcases hy with ⟨r, _, hr⟩
  rw [← hr]
  apply div_nonneg
  · apply List.sum_nonneg
    intro x hx
    simp only [Function.comp, List.mem_map] at hx
    rcases hx with ⟨u, _, hu⟩
    rw [← hu]
    exact abs_nonneg u
  · positivity

/-! ### Claims -/

/-- C10: for every input (absent, string, or date object, including future
dates), the company-age computation returns a value ≥ 0; a future founding
date is clamped to 0.0; absent or unparsable dates yield 0.0. -/
theorem C10_company_age_nonneg_clamped (P : Prims) (fd : Option RawVal) :
    0 ≤ calculate_company_age P fd ∧
    calculate_company_age P none = 0 ∧
    (∀ s : String, P.parseYMD s = none →
        calculate_company_age P (some (RawVal.str s)) = 0) ∧
    (∀ d : PyDate, P.nowDays ≤ d.days →
        calculate_company_age P (some (RawVal.date d)) = 0) ∧
    (∀ s : String, ∀ d : PyDate, P.parseYMD s = some d → P.nowDays ≤ d.days →
        calculate_company_age P (some (RawVal.str s)) = 0) := by
  have hclamp : ∀ d : PyDate, P.nowDays ≤ d.days →
      max (0 : ℚ) (((P.nowDays - d.days : ℤ) : ℚ) / (365.25 : ℚ)) = 0 := by
    intro d hd
    apply max_eq_left
    apply div_nonpos_of_nonpos_of_nonneg
    · have : (P.nowDays - d.days : ℤ) ≤ 0 := by omega
      exact_mod_cast this
    · norm_num
  refine ⟨?_, rfl, ?_, ?_, ?_⟩
  · cases fd with
    | none => simp [calculate_company_age]
    | some v =>
      cases v with
      | num q => simp [calculate_company_age]
      | noneV => simp [calculate_company_age, truthy]
      | str s =>
        simp only [calculate_company_age, truthy]
        split
        · exact le_refl (0 : ℚ)
        · cases hp : P.parseYMD s
          · simp [hp]
          · simp only [hp]
            exact le_max_left (0 : ℚ) _
      | date d =>
        simp only [calculate_company_age, truthy]
        exact le_max_left (0 : ℚ) _
  · intro s hs
    by_cases ht : s = ""
    · simp [calculate_company_age, truthy, ht]
    · simp [calculate_company_age, truthy, ht, hs]
  · intro d hd
    have heval : calculate_company_age P (some (RawVal.date d)) =
        max 0 (((P.nowDays - d.days : ℤ) : ℚ) / (365.25 : ℚ)) := by
      simp [calculate_company_age, truthy]
    rw [heval]
    exact hclamp d hd
  · intro s d hs hd
    by_cases ht : s = ""
    · simp [calculate_company_age, truthy, ht]
    · have heval : calculate_company_age P (some (RawVal.str s)) =
          max 0 (((P.nowDays - d.days : ℤ) : ℚ) / (365.25 : ℚ)) := by
        simp [calculate_company_age, truthy, ht, hs]
      rw [heval]
      exact hclamp d hd

/-- C10 witness: concrete evaluations through the theorem, with a future
date (2030-01-01 vs. "now" in 2025) both as string and as date object. -/
theorem C10_witness :
    0 ≤ calculate_company_age primsEx (some (RawVal.str "2030-01-01")) ∧
    calculate_company_age primsEx none = 0 ∧
    calculate_company_age primsEx (some (RawVal.str "not-a-date")) = 0 ∧
    calculate_company_age primsEx (some (RawVal.date ⟨2030, 1, 21915⟩)) = 0 ∧
    calculate_company_age primsEx (some (RawVal.str "2030-01-01")) = 0 := by
  refine ⟨(C10_company_age_nonneg_clamped primsEx _).1,
          (C10_company_age_nonneg_clamped primsEx none).2.1,
          (C10_company_age_nonneg_clamped primsEx none).2.2.1 _ (by simp [primsEx]),
          (C10_company_age_nonneg_clamped primsEx none).2.2.2.1 _ (by norm_num [primsEx]),
          (C10_company_age_nonneg_clamped primsEx none).2.2.2.2 _ ⟨2030, 1, 21915⟩
            (by simp [primsEx]) (by norm_num [primsEx])⟩

/-- C6: the default `predict_batch` / `predict_proba_batch` are sequential
fan-outs over the single-instance operations; when a batch returns a list at
all, it has the same length as the input (including the empty input) and its
i-th element is the single-instance result of the i-th input. -/
theorem C6_batch_sequential_fanout {α β : Type} (p q : α → PyResult β)
    (L : List α) (out pout : List (PyResult β))
    (hout : predict_batch p L = Except.ok out)
    (hpout : predict_proba_batch q L = Except.ok pout) :
    out.length = L.length ∧ pout.length = L.length ∧
    (∀ i : ℕ, out.get? i = (L.get? i).map p) ∧
    (∀ i : ℕ, pout.get? i = (L.get? i).map q) ∧
    predict_batch p ([] : List α) = Except.ok [] ∧
    predict_proba_batch q ([] : List α) = Except.ok [] := by
  have h1 := predict_batch_ok_map p L out hout
  have h2 := predict_proba_batch_ok_map q L pout hpout
  subst h1
  subst h2
  refine ⟨List.length_map _ _, List.length_map _ _, ?_, ?_, rfl, rfl⟩
  · intro i
    exact List.get?_map p L i
  · intro i
    exact List.get?_map q L i

/-- C6 witness: the theorem applied to the concrete batch `[1, 2]` (with the
hypotheses discharged by `rfl`) and to the empty batch. -/
theorem C6_witness :
    ([PyResult.val 2, PyResult.val 3].length = [1, 2].length) ∧
    predict_batch pBatchEx ([] : List ℕ) = Except.ok [] :=
  ⟨(C6_batch_sequential_fanout pBatchEx pBatchEx [1, 2]
      [PyResult.val 2, PyResult.val 3] [PyResult.val 2, PyResult.val 3] rfl rfl).1,
   (C6_batch_sequential_fanout pBatchEx pBatchEx [1, 2]
      [PyResult.val 2, PyResult.val 3] [PyResult.val 2, PyResult.val 3] rfl rfl).2.2.2.2.1⟩

/-- The `model_status` entry of `health_check` is the independent per-model
map (definitional). -/
theorem health_check_model_status (models : List (String × LoadedModel)) :
    (health_check models).model_status =
      models.map (fun p => (p.1, model_health p.2)) := rfl

/-- The `status` entry of `health_check`, unfolded (definitional). -/
theorem health_check_status_def (models : List (String × LoadedModel)) :
    (health_check models).status =
      (if ((models.map (fun p => (p.1, model_health p.2))).filter
            (fun p => p.2 == "healthy")).length =
          (models.map (fun p => (p.1, model_health p.2))).length
       then "healthy" else "degraded") := rfl

/-- C7: `health_check` exercises each loaded model with its dummy features
and reports per-model "healthy" or "unhealthy: reason" independently; the
overall status is "healthy" exactly when every reported model is healthy,
otherwise "degraded"; a raising model's entry is "unhealthy: message" while
the other entries are unaffected. -/
theorem C7_health_check_statuses (models : List (String × LoadedModel)) :
    (health_check models).model_status =
      models.map (fun p => (p.1, model_health p.2)) ∧
    ((health_check models).status = "healthy" ↔
      ∀ pr ∈ (health_check models).model_status, pr.2 = "healthy") ∧
    ((health_check models).status = "healthy" ∨
      (health_check models).status = "degraded") ∧
    (∀ p ∈ models, ∀ e : String,
      p.2.predict (get_dummy_features p.2.feature_names) = PyResult.raised e →
      (p.1, "unhealthy: " ++ e) ∈ (health_check models).model_status) := by
  refine ⟨health_check_model_status models, ?_, ?_, ?_⟩
  · rw [health_check_status_def, health_check_model_status]
    by_cases hc :
        ((models.map (fun p => (p.1, model_health p.2))).filter
          (fun p => p.2 == "healthy")).length =
        (models.map (fun p => (p.1, model_health p.2))).length
    · rw [if_pos hc]
      constructor
      · intro _ pr hpr
        have := (length_filter_eq_length_iff_all
          (models.map (fun p => (p.1, model_health p.2)))
          (fun p => p.2 == "healthy")).1 hc pr hpr
        simpa using this
      · intro _
        rfl
    · rw [if_neg hc]
      constructor
      · intro h
        exact absurd h (by decide)
      · intro hall
        exfalso
        apply hc
        apply (length_filter_eq_length_iff_all _ _).2
        intro a ha
        simpa using hall a ha
  · rw [health_check_status_def]
    by_cases hc :
        ((models.map (fun p => (p.1, model_health p.2))).filter
          (fun p => p.2 == "healthy")).length =
        (models.map (fun p => (p.1, model_health p.2))).length
    · left
      rw [if_pos hc]
    · right
      rw [if_neg hc]
  · intro p hp e he
    rw [health_check_model_status]
    have hmem : (p.1, model_health p.2) ∈
        models.map (fun p => (p.1, model_health p.2)) :=
      List.mem_map_of_mem _ hp
    have hmh : model_health p.2 = "unhealthy: " ++ e := by
      unfold model_health
      rw [he]
    rwa [hmh] at hmem

/-- C7 witness: a registry with one healthy model and one whose dummy
prediction raises — the raising model is reported "unhealthy: boom", the
overall status is "degraded", and the other model remains "healthy". -/
theorem C7_witness :
    (health_check healthModelsEx).model_status =
      [("m1", "healthy"), ("m2", "unhealthy: boom")] ∧
    ("m2", "unhealthy: boom") ∈ (health_check healthModelsEx).model_status ∧
    (health_check healthModelsEx).status = "degraded" ∧
    (health_check [("m1", lmHealthyEx)]).status = "healthy" := by
  have hms := (C7_health_check_statuses healthModelsEx).1
  have hmem := (C7_health_check_statuses healthModelsEx).2.2.2
    ("m2", lmRaisingEx) (by simp [healthModelsEx]) "boom" rfl
  have hiff := (C7_health_check_statuses healthModelsEx).2.1
  have hor := (C7_health_check_statuses healthModelsEx).2.2.1
  refine ⟨hms.trans (by rfl), hmem, ?_, ?_⟩
  · rcases hor with h | h
    · exfalso
      have := hiff.1 h ("m2", "unhealthy: boom") hmem
      simp at this
    · exact h
  · exact (C7_health_check_statuses [("m1", lmHealthyEx)]).2.1.2
      (by
        intro pr hpr
        have := (C7_health_check_statuses [("m1", lmHealthyEx)]).1
        rw [this] at hpr
        simp [lmHealthyEx, model_health] at hpr
        simp [hpr])

/-- C2 counterexample: the decision tree's `predict_proba` on an untrained
model returns Python's `None` — the very value a trained regressor-mode
decision tree returns as its normal output — so it does not signal the
model-not-trained condition (it is neither the "Model not trained" error
payload nor a raised not-trained error). -/
theorem C2_counterexample :
    dtUntrainedEx.is_trained = false ∧
    dtTrainedRegEx.is_trained = true ∧
    dt_predict_proba dtUntrainedEx instEx = PyResult.noneVal ∧
    dt_predict_proba dtTrainedRegEx instEx = dt_predict_proba dtUntrainedEx instEx ∧
    dt_predict_proba dtUntrainedEx instEx ≠ PyResult.errorPayload "Model not trained" ∧
    dt_predict_proba dtUntrainedEx instEx ≠
      PyResult.raised "Model must be trained before making predictions" :=
  ⟨rfl, rfl, rfl, rfl, by decide, by decide⟩

/-- C2 (amended): on an untrained model, `predict` returns the
"Model not trained" error payload on the decision tree, neural network and
QDA variants and raises on the random forest; `predict_proba` raises on the
random forest but returns `None` on the decision tree (the neural network
and QDA variants define no `predict_proba` of their own). -/
theorem C2_untrained_inference_behavior
    (sdt : DecisionTreeModelState) (srf : RandomForestModelState)
    (snn : NeuralNetworkModelState) (sq : QDAModelState) (x : Instance)
    (h1 : sdt.is_trained = false) (h2 : srf.is_trained = false)
    (h3 : snn.is_trained = false) (h4 : sq.is_trained = false) :
    dt_predict sdt x = PyResult.errorPayload "Model not trained" ∧
    (nn_predict snn x).1 = PyResult.errorPayload "Model not trained" ∧
    (qda_predict sq x).1 = PyResult.errorPayload "Model not trained" ∧
    rf_predict srf x = PyResult.raised "Model must be trained before making predictions" ∧
    rf_predict_proba srf x =
      PyResult.raised "Model must be trained before making predictions" ∧
    dt_predict_proba sdt x = PyResult.noneVal := by
  refine ⟨?_, ?_, ?_, ?_, ?_, ?_⟩
  · simp [dt_predict, h1]
  · simp [nn_predict, h3]
  · simp [qda_predict, h4]
  · simp [rf_predict, h2]
  · simp [rf_predict_proba, h2]
  · simp [dt_predict_proba, h1]

/-- C2 witness: the amended theorem applied to concrete untrained states of
all four variants. -/
theorem C2_witness :
    dt_predict dtUntrainedEx instEx = PyResult.errorPayload "Model not trained" ∧
    (nn_predict nnUntrainedEx instEx).1 = PyResult.errorPayload "Model not trained" ∧
    (qda_predict qdaUntrainedEx instEx).1 = PyResult.errorPayload "Model not trained" ∧
    rf_predict rfUntrainedEx instEx =
      PyResult.raised "Model must be trained before making predictions" ∧
    rf_predict_proba rfUntrainedEx instEx =
      PyResult.raised "Model must be trained before making predictions" ∧
    dt_predict_proba dtUntrainedEx instEx = PyResult.noneVal :=
  C2_untrained_inference_behavior dtUntrainedEx rfUntrainedEx nnUntrainedEx
    qdaUntrainedEx instEx rfl rfl rfl rfl

/-- C3 counterexample: `get_feature_importance` on an untrained random
forest raises a ValueError instead of returning the empty mapping the claim
requires. -/
theorem C3_counterexample :
    rfUntrainedEx.is_trained = false ∧
    rf_get_feature_importance rfUntrainedEx =
      PyResult.raised "Model must be trained to get feature importance" ∧
    rf_get_feature_importance rfUntrainedEx ≠ PyResult.val [] :=
  ⟨rfl, rfl, by decide⟩

/-- C3 (amended): on an untrained model, the decision tree, neural network
and QDA variants return the empty mapping while the random forest raises;
on a trained model (with the sklearn-guaranteed shapes: importances aligned
with the feature names, nonnegative impurity importances, nonzero weight
mass for the normalizing variants, and for QDA a `coef_` matrix actually
present), the result has exactly one entry per training feature name, every
score is ≥ 0, and the neural network and QDA scores sum to exactly 1. -/
theorem C3_feature_importance_behavior
    (sdtu : DecisionTreeModelState) (snnu : NeuralNetworkModelState)
    (squ : QDAModelState) (srfu : RandomForestModelState)
    (hu1 : sdtu.is_trained = false) (hu2 : snnu.is_trained = false)
    (hu3 : squ.is_trained = false) (hu4 : srfu.is_trained = false)
    (sdt : DecisionTreeModelState) (hdt : sdt.is_trained = true)
    (hdtlen : sdt.feature_names.length = sdt.model.featureImportancesAttr.length)
    (hdtpos : ∀ v ∈ sdt.model.featureImportancesAttr, 0 ≤ v)
    (srf : RandomForestModelState) (hrf : srf.is_trained = true)
    (hrflen : srf.feature_names.length = srf._model.featureImportancesAttr.length)
    (hrfpos : ∀ v ∈ srf._model.featureImportancesAttr, 0 ≤ v)
    (snn : NeuralNetworkModelState) (hnn : snn.is_trained = true)
    (w0 : List (List ℚ)) (wrest : List (List (List ℚ)))
    (hw : snn.model.coefsAttr = some (w0 :: wrest))
    (hwlen : snn.feature_names.length = w0.length)
    (hwsum : (rowMeans (w0.map (fun r => r.map (fun x => |x|)))).sum ≠ 0)
    (sq : QDAModelState) (hq : sq.is_trained = true)
    (mq : List (List ℚ)) (hmq : sq.model.coefAttr = some (some mq))
    (hmqne : mq ≠ [])
    (hmqrect : ∀ r ∈ mq, r.length = sq.feature_names.length)
    (hmqsum : ((colSums (mq.map (fun r => r.map (fun x => |x|)))).map
        (fun x => x / (mq.length : ℚ))).sum ≠ 0) :
    dt_get_feature_importance sdtu = PyResult.val [] ∧
    nn_get_feature_importance snnu = PyResult.val [] ∧
    qda_get_feature_importance squ = PyResult.val [] ∧
    rf_get_feature_importance srfu =
      PyResult.raised "Model must be trained to get feature importance" ∧
    (∃ l, dt_get_feature_importance sdt = PyResult.val l ∧
       l.map Prod.fst = sdt.feature_names ∧ ∀ pr ∈ l, 0 ≤ pr.2) ∧
    (∃ l, rf_get_feature_importance srf = PyResult.val l ∧
       (l.map Prod.fst).Perm srf.feature_names ∧ ∀ pr ∈ l, 0 ≤ pr.2) ∧
    (∃ l, nn_get_feature_importance snn = PyResult.val l ∧
       l.map Prod.fst = snn.feature_names ∧ (∀ pr ∈ l, 0 ≤ pr.2) ∧
       (l.map Prod.snd).sum = 1) ∧
    (∃ l, qda_get_feature_importance sq = PyResult.val l ∧
       l.map Prod.fst = sq.feature_names ∧ (∀ pr ∈ l, 0 ≤ pr.2) ∧
       (l.map Prod.snd).sum = 1) := by
  refine ⟨?_, ?_, ?_, ?_, ?_, ?_, ?_, ?_⟩
  · simp [dt_get_feature_importance, hu1]
  · simp [nn_get_feature_importance, hu2]
  · simp [qda_get_feature_importance, hu3]
  · simp [rf_get_feature_importance, hu4]
  · refine ⟨sdt.feature_names.zip sdt.model.featureImportancesAttr, ?_, ?_, ?_⟩
    · simp [dt_get_feature_importance, hdt]
    · exact List.map_fst_zip _ _ (le_of_eq hdtlen)
    · rintro ⟨a, b⟩ hpr
      exact hdtpos b (List.of_mem_zip hpr).2
  · refine ⟨sortByValDesc (srf.feature_names.zip srf._model.featureImportancesAttr),
      ?_, ?_, ?_⟩
    · simp [rf_get_feature_importance, hrf]
    · have hperm : (sortByValDesc
          (srf.feature_names.zip srf._model.featureImportancesAttr)).Perm
          (srf.feature_names.zip srf._model.featureImportancesAttr) :=
        List.mergeSort_perm _ _
      have hmap := hperm.map Prod.fst
      rwa [List.map_fst_zip _ _ (le_of_eq hrflen)] at hmap
    · rintro ⟨a, b⟩ hpr
      have hperm : (sortByValDesc
          (srf.feature_names.zip srf._model.featureImportancesAttr)).Perm
          (srf.feature_names.zip srf._model.featureImportancesAttr) :=
        List.mergeSort_perm _ _
      exact hrfpos b (List.of_mem_zip (hperm.mem_iff.1 hpr)).2
  · have hfi : ∀ y ∈ rowMeans (w0.map (fun r => r.map (fun x => |x|))), 0 ≤ y :=
      rowMeans_nonneg w0
    have hssum : 0 ≤ (rowMeans (w0.map (fun r => r.map (fun x => |x|)))).sum :=
      List.sum_nonneg hfi
    have hfilen : (rowMeans (w0.map (fun r => r.map (fun x => |x|)))).length =
        w0.length := by
      simp [rowMeans]
    refine ⟨snn.feature_names.zip
      ((rowMeans (w0.map (fun r => r.map (fun x => |x|)))).map
        (fun x => x / (rowMeans (w0.map (fun r => r.map (fun x => |x|)))).sum)),
      ?_, ?_, ?_, ?_⟩
    · simp [nn_get_feature_importance, hnn, hw]
    · apply List.map_fst_zip
      rw [List.length_map, hfilen]
      exact le_of_eq hwlen
    · rintro ⟨a, b⟩ hpr
      have hb := (List.of_mem_zip hpr).2
      rw [List.mem_map] at hb
      rcases hb with ⟨y, hy, hyb⟩
      rw [← hyb]
      exact div_nonneg (hfi y hy) hssum
    · rw [List.map_snd_zip]
      · rw [sum_map_div, div_self hwsum]
      · rw [List.length_map, hfilen, ← hwlen]
  · have habs : ∀ r ∈ mq.map (fun r => r.map (fun x => |x|)),
        r.length = sq.feature_names.length := by
      intro r hr
      rw [List.mem_map] at hr
      rcases hr with ⟨r0, hr0, hrr⟩
      rw [← hrr, List.length_map]
      exact hmqrect r0 hr0
    have habsne : mq.map (fun r => r.map (fun x => |x|)) ≠ [] := by
      simpa using hmqne
    have hcslen : (colSums (mq.map (fun r => r.map (fun x => |x|)))).length =
        sq.feature_names.length :=
      colSums_length _ _ habsne habs
    have hcs : ∀ y ∈ colSums (mq.map (fun r => r.map (fun x => |x|))), 0 ≤ y := by
      apply colSums_nonneg
      intro r hr x hx
      rw [List.mem_map] at hr
      rcases hr with ⟨r0, _, hrr⟩
      rw [← hrr] at hx
      rw [List.mem_map] at hx
      rcases hx with ⟨u, _, hu⟩
      rw [← hu]
      exact abs_nonneg u
    have hfi : ∀ y ∈ (colSums (mq.map (fun r => r.map (fun x => |x|)))).map
        (fun x => x / (mq.length : ℚ)), 0 ≤ y := by
      intro y hy
      rw [List.mem_map] at hy
      rcases hy with ⟨u, hu, huy⟩
      rw [← huy]
      apply div_nonneg (hcs u hu)
      positivity
    have hssum : 0 ≤ ((colSums (mq.map (fun r => r.map (fun x => |x|)))).map
        (fun x => x / (mq.length : ℚ))).sum :=
      List.sum_nonneg hfi
    refine ⟨sq.feature_names.zip
      (((colSums (mq.map (fun r => r.map (fun x => |x|)))).map
          (fun x => x / (mq.length : ℚ))).map
        (fun x => x / ((colSums (mq.map (fun r => r.map (fun x => |x|)))).map
          (fun x => x / (mq.length : ℚ))).sum)),
      ?_, ?_, ?_, ?_⟩
    · simp [qda_get_feature_importance, hq, hmq]
    · apply List.map_fst_zip
      rw [List.length_map, List.length_map, hcslen]
    · rintro ⟨a, b⟩ hpr
      have hb := (List.of_mem_zip hpr).2
      rw [List.mem_map] at hb
      rcases hb with ⟨y, hy, hyb⟩
      rw [← hyb]
      exact div_nonneg (hfi y hy) hssum
    · rw [List.map_snd_zip]
      · rw [sum_map_div, div_self hmqsum]
      · rw [List.length_map, List.length_map, hcslen]

/-- C3 witness: the amended theorem applied to concrete untrained and
trained states of the four variants. -/
theorem C3_witness :
    dt_get_feature_importance dtUntrainedEx = PyResult.val [] ∧
    nn_get_feature_importance nnUntrainedEx = PyResult.val [] ∧
    qda_get_feature_importance qdaUntrainedEx = PyResult.val [] ∧
    rf_get_feature_importance rfUntrainedEx =
      PyResult.raised "Model must be trained to get feature importance" ∧
    (∃ l, dt_get_feature_importance dtTrainedEx = PyResult.val l ∧
       l.map Prod.fst = dtTrainedEx.feature_names ∧ ∀ pr ∈ l, 0 ≤ pr.2) ∧
    (∃ l, nn_get_feature_importance nnTrainedEx = PyResult.val l ∧
       l.map Prod.fst = nnTrainedEx.feature_names ∧ (∀ pr ∈ l, 0 ≤ pr.2) ∧
       (l.map Prod.snd).sum = 1) := by
  have h := C3_feature_importance_behavior dtUntrainedEx nnUntrainedEx
    qdaUntrainedEx rfUntrainedEx rfl rfl rfl rfl
    dtTrainedEx rfl (by decide)
    (by
      intro v hv
      simp [dtTrainedEx, dtUntrainedEx, skModelEx] at hv
      rcases hv with rfl | rfl <;> norm_num)
    rfTrainedEx rfl (by decide)
    (by
      intro v hv
      simp [rfTrainedEx, rfUntrainedEx, skModelEx] at hv
      rcases hv with rfl | rfl <;> norm_num)
    nnTrainedEx rfl [[1], [3]] [] rfl (by decide) (by norm_num [rowMeans])
    qdaTrainedEx rfl [[1, 3]] rfl (by decide) (by decide)
    (by norm_num [colSums])
  exact ⟨h.1, h.2.1, h.2.2.1, h.2.2.2.1, h.2.2.2.2.1, h.2.2.2.2.2.2.1⟩

theorem sum_eq_range_getD : ∀ l : List ℚ,
    l.sum = ((List.range l.length).map (fun i => l.getD i 0)).sum := by
  intro l
  induction l with
  | nil => simp
  | cons x xs ih =>
    rw [List.length_cons, List.range_succ_eq_map, List.map_cons, List.map_map,
      List.sum_cons, List.sum_cons, ih]
    rfl

/-- C9 counterexample: a trained QDA whose estimator has no `coef_`
attribute at all (the actual sklearn QDA situation) gets the empty mapping
from `get_feature_importance`, not the uniform 1/n importance the claim
promises when coefficients are unavailable. -/
theorem C9_counterexample :
    qdaNoCoefEx.is_trained = true ∧
    qdaNoCoefEx.model.coefAttr = none ∧
    qdaNoCoefEx.feature_names = ["a", "b"] ∧
    qda_get_feature_importance qdaNoCoefEx = PyResult.val [] ∧
    qda_get_feature_importance qdaNoCoefEx ≠
      PyResult.val [("a", (1 : ℚ) / 2), ("b", (1 : ℚ) / 2)] :=
  ⟨rfl, rfl, rfl, rfl, by decide⟩

/-- C9 (amended): for a trained QDA, when the estimator exposes a non-`None`
`coef_` matrix the importance is the per-feature mean absolute coefficient
over the classes divided by the total of those means (so the scores sum
to 1); when `coef_` exists but is `None`, the importance is uniform `1/n`;
when the `coef_` attribute is absent altogether (or on any failure), the
result is the empty mapping, not the uniform one. -/
theorem C9_qda_importance_coef_cases
    (s1 : QDAModelState) (h1 : s1.is_trained = true)
    (m : List (List ℚ)) (hm : s1.model.coefAttr = some (some m))
    (hmne : m ≠ [])
    (hrect : ∀ r ∈ m, r.length = s1.feature_names.length)
    (hsum : ((colSums (m.map (fun r => r.map (fun x => |x|)))).map
        (fun x => x / (m.length : ℚ))).sum ≠ 0)
    (s2 : QDAModelState) (h2 : s2.is_trained = true)
    (hm2 : s2.model.coefAttr = some none) (hn2 : s2.feature_names ≠ [])
    (s3 : QDAModelState) (h3 : s3.is_trained = true)
    (hm3 : s3.model.coefAttr = none) :
    (∃ vals : List ℚ,
      qda_get_feature_importance s1 = PyResult.val (s1.feature_names.zip vals) ∧
      vals.length = s1.feature_names.length ∧
      vals.sum = 1 ∧
      (∀ j : ℕ,
        vals.getD j 0 =
          ((m.map (fun r => |r.getD j 0|)).sum / (m.length : ℚ)) /
          (((List.range s1.feature_names.length).map
            (fun i => (m.map (fun r => |r.getD i 0|)).sum / (m.length : ℚ))).sum))) ∧
    qda_get_feature_importance s2 = PyResult.val
      (s2.feature_names.map
        (fun nm => (nm, (1 : ℚ) / (s2.feature_names.length : ℚ)))) ∧
    qda_get_feature_importance s3 = PyResult.val [] := by
  have habs : ∀ r ∈ m.map (fun r => r.map (fun x => |x|)),
      r.length = s1.feature_names.length := by
    intro r hr
    rw [List.mem_map] at hr
    rcases hr with ⟨r0, hr0, hrr⟩
    rw [← hrr, List.length_map]
    exact hrect r0 hr0
  have habsne : m.map (fun r => r.map (fun x => |x|)) ≠ [] := by
    simpa using hmne
  have hcslen : (colSums (m.map (fun r => r.map (fun x => |x|)))).length =
      s1.feature_names.length :=
    colSums_length _ _ habsne habs
  have hgetD : ∀ j : ℕ,
      ((colSums (m.map (fun r => r.map (fun x => |x|)))).map
        (fun x => x / (m.length : ℚ))).getD j 0 =
      (m.map (fun r => |r.getD j 0|)).sum / (m.length : ℚ) := by
    intro j
    rw [map_div_getD, colSums_getD _ _ habs j, List.map_map]
    congr 1
    apply congrArg
    apply List.map_congr_left
    intro r _
    exact map_abs_getD r j
  have hfilen : ((colSums (m.map (fun r => r.map (fun x => |x|)))).map
      (fun x => x / (m.length : ℚ))).length = s1.feature_names.length := by
    rw [List.length_map, hcslen]
  have hT : ((List.range s1.feature_names.length).map
      (fun i => (m.map (fun r => |r.getD i 0|)).sum / (m.length : ℚ))).sum =
      ((colSums (m.map (fun r => r.map (fun x => |x|)))).map
        (fun x => x / (m.length : ℚ))).sum := by
    rw [sum_eq_range_getD ((colSums (m.map (fun r => r.map (fun x => |x|)))).map
      (fun x => x / (m.length : ℚ))), hfilen]
    apply congrArg
    apply List.map_congr_left
    intro i _
    exact (hgetD i).symm
  refine ⟨⟨((colSums (m.map (fun r => r.map (fun x => |x|)))).map
      (fun x => x / (m.length : ℚ))).map
      (fun x => x / ((colSums (m.map (fun r => r.map (fun x => |x|)))).map
        (fun x => x / (m.length : ℚ))).sum), ?_, ?_, ?_, ?_⟩, ?_, ?_⟩
  · simp [qda_get_feature_importance, h1, hm]
  · rw [List.length_map, hfilen]
  · rw [sum_map_div, div_self hsum]
  · intro j
    rw [map_div_getD, hgetD j, hT]
  · have hlen : ¬ s2.feature_names.length = 0 := by
      simpa [List.length_eq_zero] using hn2
    simp [qda_get_feature_importance, h2, hm2, hlen]
  · simp [qda_get_feature_importance, h3, hm3]

/-- C9 witness: the amended theorem applied to three concrete trained QDA
states (coefficient matrix `[[1, 3]]`, `coef_ = None`, and `coef_` absent). -/
theorem C9_witness :
    (∃ vals : List ℚ,
      qda_get_feature_importance qdaTrainedEx =
        PyResult.val (qdaTrainedEx.feature_names.zip vals) ∧
      vals.length = qdaTrainedEx.feature_names.length ∧
      vals.sum = 1 ∧
      (∀ j : ℕ,
        vals.getD j 0 =
          (([[1, 3]].map (fun r => |r.getD j 0|)).sum / (([[1, 3]] : List (List ℚ)).length : ℚ)) /
          (((List.range qdaTrainedEx.feature_names.length).map
            (fun i => (([[1, 3]] : List (List ℚ)).map (fun r => |r.getD i 0|)).sum /
              (([[1, 3]] : List (List ℚ)).length : ℚ))).sum))) ∧
    qda_get_feature_importance qdaCoefNoneEx = PyResult.val
      (qdaCoefNoneEx.feature_names.map
        (fun nm => (nm, (1 : ℚ) / (qdaCoefNoneEx.feature_names.length : ℚ)))) ∧
    qda_get_feature_importance qdaNoCoefEx = PyResult.val [] :=
  C9_qda_importance_coef_cases qdaTrainedEx rfl [[1, 3]] rfl
    (by decide) (by decide) (by norm_num [colSums])
    qdaCoefNoneEx rfl rfl (by decide)
    qdaNoCoefEx rfl rfl

/-- C4 counterexample: the value "extreme" is outside the competition-level
vocabulary, yet the extractor encodes it as 2 (the "medium" default), not 0. -/
theorem C4_counterexample :
    competition_levels.lookup "extreme" = none ∧
    (extract_features primsEx dataC4).lookup "competition_level_numeric" = some 2 ∧
    ¬ (extract_features primsEx dataC4).lookup "competition_level_numeric" = some 0 := by
  have h2 : (extract_features primsEx dataC4).lookup "competition_level_numeric" =
      some 2 := rfl
  refine ⟨rfl, h2, ?_⟩
  rw [h2]
  norm_num

/-- C4 (amended): for categorical values outside the known vocabulary the
extractor never raises and encodes funding stage, sector and business model
as 0, but encodes competition level as 2 (the "medium" default of its
`dict.get`). -/
theorem C4_unknown_categorical_encoding (P : Prims) (data : RawData)
    (s1 s2 s3 s4 : String)
    (hd1 : data "funding_stage" = some (RawVal.str s1))
    (hn1 : funding_stages.lookup s1 = none)
    (hd2 : data "sector" = some (RawVal.str s2))
    (hn2 : sectors.lookup s2 = none)
    (hd3 : data "business_model" = some (RawVal.str s3))
    (hn3 : business_models.lookup s3 = none)
    (hd4 : data "competition_level" = some (RawVal.str s4))
    (hn4 : competition_levels.lookup s4 = none) :
    (extract_financial_features P data).lookup "funding_stage_numeric" = some 0 ∧
    (extract_market_features P data).lookup "competition_level_numeric" = some 2 ∧
    (∀ c, extract_company_features P data = Except.ok c →
       c.lookup "sector_numeric" = some 0 ∧
       c.lookup "business_model_numeric" = some 0) := by
  refine ⟨?_, ?_, ?_⟩
  · have hfin : (extract_financial_features P data).lookup "funding_stage_numeric" =
        some (mappingGet funding_stages
          (dataGet data "funding_stage" (RawVal.str "Other")) 0) := by
      simp [extract_financial_features, List.lookup]
    rw [hfin]
    simp only [dataGet, hd1, Option.getD_some]
    simp [mappingGet, hn1]
  · have hmar : (extract_market_features P data).lookup "competition_level_numeric" =
        some (mappingGet competition_levels
          (dataGet data "competition_level" (RawVal.str "medium")) 2) := by
      simp [extract_market_features, List.lookup]
    rw [hmar]
    simp only [dataGet, hd4, Option.getD_some]
    simp [mappingGet, hn4]
  · intro c hc
    unfold extract_company_features at hc
    cases hg : get_geography_tier_val (dataGet data "geography" (RawVal.str "Other")) with
    | error e =>
      rw [hg] at hc
      cases hc
    | ok gt =>
      rw [hg] at hc
      cases hc
      constructor
      · have hsec : (List.lookup "sector_numeric"
            [("company_age", calculate_company_age P (data "founded_date")),
             ("sector_numeric", mappingGet sectors
               (dataGet data "sector" (RawVal.str "Other")) 0),
             ("business_model_numeric", mappingGet business_models
               (dataGet data "business_model" (RawVal.str "Other")) 0),
             ("geography_tier", (gt : ℚ)),
             ("employee_count", ((safe_int P (dataGet data "employee_count" (RawVal.num 0))) : ℚ)),
             ("employee_growth", safe_float P (dataGet data "employee_growth" (RawVal.num 0)))]) =
            some (mappingGet sectors (dataGet data "sector" (RawVal.str "Other")) 0) := by
          simp [List.lookup]
        rw [hsec]
        simp only [dataGet, hd2, Option.getD_some]
        simp [mappingGet, hn2]
      · have hbm : (List.lookup "business_model_numeric"
            [("company_age", calculate_company_age P (data "founded_date")),
             ("sector_numeric", mappingGet sectors
               (dataGet data "sector" (RawVal.str "Other")) 0),
             ("business_model_numeric", mappingGet business_models
               (dataGet data "business_model" (RawVal.str "Other")) 0),
             ("geography_tier", (gt : ℚ)),
             ("employee_count", ((safe_int P (dataGet data "employee_count" (RawVal.num 0))) : ℚ)),
             ("employee_growth", safe_float P (dataGet data "employee_growth" (RawVal.num 0)))]) =
            some (mappingGet business_models
              (dataGet data "business_model" (RawVal.str "Other")) 0) := by
          simp [List.lookup]
        rw [hbm]
        simp only [dataGet, hd3, Option.getD_some]
        simp [mappingGet, hn3]

/-- C4 witness: the amended theorem applied to a concrete input whose four
categorical fields are all outside the vocabulary. -/
theorem C4_witness :
    (extract_financial_features primsEx dataC4).lookup "funding_stage_numeric" = some 0 ∧
    (extract_market_features primsEx dataC4).lookup "competition_level_numeric" = some 2 :=
  ⟨(C4_unknown_categorical_encoding primsEx dataC4 "Series Z" "SpaceTech"
      "Franchise" "extreme" rfl rfl rfl rfl rfl rfl rfl rfl).1,
   (C4_unknown_categorical_encoding primsEx dataC4 "Series Z" "SpaceTech"
      "Franchise" "extreme" rfl rfl rfl rfl rfl rfl rfl rfl).2.1⟩

/-- C5 counterexample: on the empty raw input the extractor does not return
the fixed 15-entry default vector — it computes the full 34-entry vector
normally. -/
theorem C5_counterexample :
    (extract_features primsEx emptyData).length = 34 ∧
    _get_default_features.length = 15 ∧
    extract_features primsEx emptyData ≠ _get_default_features := by
  have h34 : (extract_features primsEx emptyData).length = 34 := rfl
  have h15 : _get_default_features.length = 15 := rfl
  refine ⟨h34, h15, ?_⟩
  intro h
  have hlen := congrArg List.length h
  rw [h34, h15] at hlen
  exact absurd hlen (by decide)

/-- C5 (amended): on a raw input missing every optional field the extractor
does not raise and returns the normally computed feature vector, with every
data-derived feature at its neutral default (zeros, competition level 2 =
"medium", geography tier 3) plus the wall-clock temporal features; the fixed
default vector is returned only when extraction fails internally. -/
theorem C5_empty_input_normal_vector (P : Prims) :
    extract_features P emptyData =
      [("revenue", 0), ("revenue_growth", 0), ("recurring_revenue_ratio", 0),
       ("funding_amount", 0), ("previous_funding", 0), ("funding_stage_numeric", 0),
       ("burn_rate", 0), ("runway_months", 0), ("unit_economics_score", 0),
       ("company_age", 0), ("sector_numeric", 0), ("business_model_numeric", 0),
       ("geography_tier", 3), ("employee_count", 0), ("employee_growth", 0),
       ("market_size", 0), ("competition_level_numeric", 2),
       ("market_growth_rate", 0), ("market_penetration", 0),
       ("current_year", (P.nowYear : ℚ)), ("current_month", (P.nowMonth : ℚ)),
       ("current_quarter", ((Int.fdiv (P.nowMonth - 1) 3 + 1 : ℤ) : ℚ)),
       ("founder_experience", 0), ("team_size", 0), ("technical_team_ratio", 0),
       ("advisor_count", 0), ("previous_exits", 0),
       ("product_readiness", 0), ("customer_count", 0),
       ("customer_acquisition_cost", 0), ("customer_lifetime_value", 0),
       ("churn_rate", 0), ("nps_score", 0), ("ltv_cac_ratio", 0)] := rfl

/-- C1 counterexample: the QDA save bundle has no `model_type` entry, and the
base-class bundle the random forest uses has neither `scaler` nor
`label_encoders` entries — the claimed seven-field artifact format does not
hold for every variant. -/
theorem C1_counterexample :
    (qda_save_model qdaTrainedEx).model_type = none ∧
    (base_save_model rfTrainedEx).scaler = none ∧
    (base_save_model rfTrainedEx).label_encoders = none :=
  ⟨rfl, rfl, rfl⟩

/-- C1 (amended): for each variant, loading its own saved bundle succeeds
and restores exactly the saved fields — every piece of state `predict` /
`predict_proba` read — so the loaded model's predictions agree with the
original on every instance; the decision tree and neural network bundles
carry all seven claimed entries, while the QDA bundle omits `model_type` and
the base bundle used by the random forest omits `scaler` and encoders (that
variant has none) and adds metrics and the training date. -/
theorem C1_save_load_roundtrip
    (sdt s0dt : DecisionTreeModelState) (srf s0rf : RandomForestModelState)
    (snn s0nn : NeuralNetworkModelState) (sq s0q : QDAModelState)
    (x : Instance) :
    dt_load_model (dt_save_model sdt) s0dt = Except.ok
      { s0dt with model := sdt.model, scaler := sdt.scaler,
                  label_encoders := sdt.label_encoders,
                  feature_names := sdt.feature_names,
                  model_name := sdt.model_name, version := sdt.version,
                  model_type := sdt.model_type, is_trained := sdt.is_trained } ∧
    dt_predict
      { s0dt with model := sdt.model, scaler := sdt.scaler,
                  label_encoders := sdt.label_encoders,
                  feature_names := sdt.feature_names,
                  model_name := sdt.model_name, version := sdt.version,
                  model_type := sdt.model_type, is_trained := sdt.is_trained } x =
      dt_predict sdt x ∧
    dt_predict_proba
      { s0dt with model := sdt.model, scaler := sdt.scaler,
                  label_encoders := sdt.label_encoders,
                  feature_names := sdt.feature_names,
                  model_name := sdt.model_name, version := sdt.version,
                  model_type := sdt.model_type, is_trained := sdt.is_trained } x =
      dt_predict_proba sdt x ∧
    base_load_model (base_save_model srf) s0rf = Except.ok
      { s0rf with _model := srf._model, model_name := srf.model_name,
                  model_type := srf.model_type, version := srf.version,
                  feature_names := srf.feature_names,
                  performance_metrics := srf.performance_metrics,
                  training_date := srf.training_date,
                  is_trained := srf.is_trained } ∧
    rf_predict
      { s0rf with _model := srf._model, model_name := srf.model_name,
                  model_type := srf.model_type, version := srf.version,
                  feature_names := srf.feature_names,
                  performance_metrics := srf.performance_metrics,
                  training_date := srf.training_date,
                  is_trained := srf.is_trained } x = rf_predict srf x ∧
    rf_predict_proba
      { s0rf with _model := srf._model, model_name := srf.model_name,
                  model_type := srf.model_type, version := srf.version,
                  feature_names := srf.feature_names,
                  performance_metrics := srf.performance_metrics,
                  training_date := srf.training_date,
                  is_trained := srf.is_trained } x = rf_predict_proba srf x ∧
    nn_load_model (nn_save_model snn) s0nn = Except.ok snn ∧
    qda_load_model (qda_save_model sq) s0q = Except.ok sq ∧
    (dt_save_model sdt).model_type = some sdt.model_type ∧
    (dt_save_model sdt).scaler = some sdt.scaler ∧
    (nn_save_model snn).model_type = some snn.model_type ∧
    (qda_save_model sq).model_type = none ∧
    (base_save_model srf).scaler = none ∧
    (base_save_model srf).label_encoders = none ∧
    (base_save_model srf).performance_metrics = some srf.performance_metrics :=
  ⟨rfl, rfl, rfl, rfl, rfl, rfl, rfl, rfl, rfl, rfl, rfl, rfl, rfl, rfl, rfl⟩

/-- C8: both explainers degrade to explicit error-marker values and never
raise when the optional backend is unavailable or when no explainer has been
constructed under the given name; in particular `explain_prediction` on an
unknown name returns the "No explainer found" error value. -/
theorem C8_explainers_degrade_not_raise
    (stS : SHAPExplainerState) (stL : LIMEExplainerState) (name : String)
    (x : List ℚ) (xs : List (List ℚ)) (fns : Option (List String))
    (pfn : List ℚ → List ℚ) (nf ns md : ℕ)
    (render : LimeRawExplanation → String)
    (hSun : stS.available = false)
    (stS2 : SHAPExplainerState) (hS2 : stS2.available = true)
    (hS2n : stS2.explainers.lookup name = none)
    (hLun : stL.available = false)
    (stL2 : LIMEExplainerState) (hL2 : stL2.available = true)
    (hL2n : stL2.explainers.lookup name = none) :
    shap_explain_prediction stS name x fns =
      PyResult.errorPayload "SHAP not available" ∧
    shap_get_feature_importance stS name xs fns = PyResult.val [] ∧
    shap_create_summary_plot_data stS name xs md =
      PyResult.errorPayload "SHAP not available" ∧
    shap_explain_prediction stS2 name x fns =
      PyResult.errorPayload ("No explainer found for " ++ name) ∧
    shap_get_feature_importance stS2 name xs fns = PyResult.val [] ∧
    shap_create_summary_plot_data stS2 name xs md =
      PyResult.errorPayload ("No explainer found for " ++ name) ∧
    lime_explain_prediction stL name x pfn nf ns =
      PyResult.errorPayload "LIME not available" ∧
    lime_get_feature_importance stL name xs pfn nf ns = PyResult.val [] ∧
    lime_explain_prediction_html stL name x pfn nf ns render =
      "<p>LIME not available</p>" ∧
    lime_explain_prediction stL2 name x pfn nf ns =
      PyResult.errorPayload ("No explainer found for " ++ name) ∧
    lime_get_feature_importance stL2 name xs pfn nf ns = PyResult.val [] ∧
    lime_explain_prediction_html stL2 name x pfn nf ns render =
      "<p>No explainer found for " ++ name ++ "</p>" := by
  refine ⟨?_, ?_, ?_, ?_, ?_, ?_, ?_, ?_, ?_, ?_, ?_, ?_⟩ <;>
    simp [shap_explain_prediction, shap_get_feature_importance,
      shap_create_summary_plot_data, lime_explain_prediction,
      lime_get_feature_importance, lime_explain_prediction_html,
      hSun, hS2, hS2n, hLun, hL2, hL2n]

/-- C8 witness: the theorem applied to concrete unavailable and
empty-registry explainer states, with `num_samples = 50` as in the spec's
scenario. -/
theorem C8_witness :
    shap_explain_prediction shapUnavailEx "random_forest" [1] none =
      PyResult.errorPayload "SHAP not available" ∧
    shap_get_feature_importance shapUnavailEx "random_forest" [[1]] none =
      PyResult.val [] ∧
    shap_create_summary_plot_data shapUnavailEx "random_forest" [[1]] 10 =
      PyResult.errorPayload "SHAP not available" ∧
    shap_explain_prediction shapEmptyEx "random_forest" [1] none =
      PyResult.errorPayload ("No explainer found for " ++ "random_forest") ∧
    shap_get_feature_importance shapEmptyEx "random_forest" [[1]] none =
      PyResult.val [] ∧
    shap_create_summary_plot_data shapEmptyEx "random_forest" [[1]] 10 =
      PyResult.errorPayload ("No explainer found for " ++ "random_forest") ∧
    lime_explain_prediction limeUnavailEx "random_forest" [1] (fun _ => []) 10 50 =
      PyResult.errorPayload "LIME not available" ∧
    lime_get_feature_importance limeUnavailEx "random_forest" [[1]] (fun _ => []) 10 50 =
      PyResult.val [] ∧
    lime_explain_prediction_html limeUnavailEx "random_forest" [1] (fun _ => []) 10 50
      (fun _ => "") = "<p>LIME not available</p>" ∧
    lime_explain_prediction limeEmptyEx "random_forest" [1] (fun _ => []) 10 50 =
      PyResult.errorPayload ("No explainer found for " ++ "random_forest") ∧
    lime_get_feature_importance limeEmptyEx "random_forest" [[1]] (fun _ => []) 10 50 =
      PyResult.val [] ∧
    lime_explain_prediction_html limeEmptyEx "random_forest" [1] (fun _ => []) 10 50
      (fun _ => "") = "<p>No explainer found for " ++ "random_forest" ++ "</p>" :=
  C8_explainers_degrade_not_raise shapUnavailEx limeUnavailEx "random_forest"
    [1] [[1]] none (fun _ => []) 10 50 10 (fun _ => "") rfl
    shapEmptyEx rfl rfl rfl limeEmptyEx rfl rfl

end Decision
